import Mathlib

/-!
# Launch-pad controller (`padcode.cpp`): shallow embedding and properties

The sketch is one control loop over global variables.  The embedding keeps the
globals in a record `State`, together with the two indicator pins, the clock and
a log of the output calls the sketch makes (infrared transmissions, pin writes,
display writes).  Each function of the sketch is a function `State → State`.

Modelling conventions
* `unsigned long` values are naturals below `2^32`; subtraction on them is
  `usub` (modulo `2^32`).  `long` is the 32-bit two's complement reading
  `toLong`.  `int` is 16 bits wide (AVR), conversions to `int` go through
  `toInt`, and so do the results of `int` arithmetic (overflow wraps).  `/` and
  `%` on signed values are C++ truncating (`Int.tdiv`, `Int.tmod`).
* `millis()` reads the field `clock` modulo `2^32`; `delay(n)` advances `clock`
  by `n`; no other statement takes time.
* `digitalRead` and `irrecv.decode` are inputs, bundled per loop iteration in
  `Input`.
* `Serial` output and `setBrightness`/`pinMode` configuration calls are not
  modelled.  The globals `lastLaunchButtonState` and `lastEmergencyStopState`
  are never read or written by the sketch and are left out.
* `currentPad` (`int` in the source) is only ever set to `0` or incremented
  while below `5`, so it is a natural number here.
-/

namespace LaunchPad

/-! ## Constants -/

/-- Pin level `HIGH`. -/
def HIGH : Int := 1

/-- Pin level `LOW`. -/
def LOW : Int := 0

/-- Pin of the green indicator (`#define LED1 6`). -/
def LED1 : Nat := 6

/-- Pin of the red indicator (`#define LED2 7`). -/
def LED2 : Nat := 7

/-- Number of displays (`#define NUM_DISPLAYS 6`). -/
def NUM_DISPLAYS : Nat := 6

/-- Number of pads (`#define NUM_LAUNCH_SYSTEMS 5`). -/
def NUM_LAUNCH_SYSTEMS : Nat := 5

/-- Code of the connection request (`0x12345678`). -/
def IR_CONNECTION_REQUEST : Nat := 0x12345678

/-- Code of the connection reply (`0x87654321`). -/
def IR_CONNECTION_REPLY : Nat := 0x87654321

/-- Code of the launch command (`0x789ABCDE`). -/
def IR_LAUNCH_MESSAGE : Nat := 0x789ABCDE

/-- Handshake timeout in milliseconds (`#define CONNECTION_TIMEOUT 5000`). -/
def CONNECTION_TIMEOUT : Nat := 5000

/-- Debounce window in milliseconds (`#define SWITCH_DEBOUNCE_DELAY 50`). -/
def SWITCH_DEBOUNCE_DELAY : Nat := 50

/-- Length of one pad countdown in milliseconds (`const int mainCountdownDuration = 5000`). -/
def mainCountdownDuration : Nat := 5000

/-! ## Machine arithmetic -/

/-- Modulus of `unsigned long` arithmetic, `2^32`. -/
def U32 : Nat := 4294967296

/-- Subtraction of two `unsigned long` values, modulo `2^32`. -/
def usub (a b : Nat) : Nat := (a % U32 + U32 - b % U32) % U32

/-- Conversion of an `unsigned long` to `long` (32-bit two's complement). -/
def toLong (x : Nat) : Int :=
  if x % U32 < 2147483648 then ((x % U32 : Nat) : Int) else ((x % U32 : Nat) : Int) - 4294967296

/-- Conversion to `int` (16-bit two's complement). -/
def toInt (x : Int) : Int := (x + 32768) % 65536 - 32768

/-! ## Outputs -/

/-- Output calls made by the sketch. -/
inductive Effect where
  | irSend (code bits khz : Nat)
  | digitalWrite (pin : Nat) (level : Int)
  | mainDisplay (value : Int)
  | lpdDisplay (index : Nat) (value : Int)
  | mainSegments (pattern : Nat)
  | lpdSegments (index : Nat) (pattern : Nat)
  | mainSetDigits
  | lpdSetDigits (index : Nat)
  deriving DecidableEq, Repr

/-- Recognises an infrared transmission. -/
def Effect.isSend : Effect → Bool
  | .irSend _ _ _ => true
  | _ => false

/-! ## State -/

/-- Global variables of the sketch, the indicator pins, the clock and the output log.
Each log entry carries the clock value at which the call was made. -/
structure State where
  keySwitchState : Int
  enableSwitchState : Int
  systemOn : Bool
  launchEnabled : Bool
  connectionEstablished : Bool
  launchButtonState : Int
  emergencyStopState : Int
  systemStopped : Bool
  launchSwitchStates : Nat → Int
  launchSequenceRunning : Bool
  currentPad : Nat
  mainCountdownStartTime : Nat
  padTimerStartTime : Nat → Nat
  padSecondsElapsed : Nat → Int
  padTimerFrozen : Nat → Bool
  lastDebounceTime : Nat → Nat
  led1 : Bool
  led2 : Bool
  clock : Nat
  out : List (Nat × Effect)

/-- Array write `arr[i] = v`. -/
def setAt {α : Type} (arr : Nat → α) (i : Nat) (v : α) : Nat → α :=
  fun j => if j = i then v else arr j

/-- Reading of `millis()`. -/
def millis (s : State) : Nat := s.clock % U32

/-- Effect of `delay(n)`. -/
def delay (n : Nat) (s : State) : State := { s with clock := s.clock + n }

/-- Appends one output call to the log. -/
def emit (e : Effect) (s : State) : State := { s with out := s.out ++ [(s.clock, e)] }

/-- Effect of `digitalWrite(pin, level)` on the indicator pins. -/
def digitalWrite (pin : Nat) (level : Int) (s : State) : State :=
  let s := emit (.digitalWrite pin level) s
  if pin = LED1 then { s with led1 := decide (level ≠ LOW) }
  else if pin = LED2 then { s with led2 := decide (level ≠ LOW) }
  else s

/-- Infrared transmissions in a log, oldest first. -/
def sends (l : List (Nat × Effect)) : List (Nat × Effect) := l.filter (fun e => e.2.isSend)

/-- Output calls appended to the log between state `s` and the later state `t`. -/
def newOut (s t : State) : List (Nat × Effect) := t.out.drop s.out.length

/-! ## Inputs -/

/-- Readings taken during one iteration of `loop`: the four operator inputs, the five
pad switches, the results of the `irrecv.decode` calls made inside
`establishConnection` (numbered from `0`) and of the one in `receiveIRMessage`. -/
structure Input where
  emergencyStop : Int
  keySwitch : Int
  enableSwitch : Int
  launchButton : Int
  launchSwitches : Nat → Int
  rxHandshake : Nat → Option Nat
  rxLoop : Option Nat

/-! ## `debounceSwitch` -/

/-- Result of one `debounceSwitch` call: the returned flag and the two reference
arguments after the call. -/
structure Debounced where
  changed : Bool
  lastState : Int
  lastDebounceTime : Nat
  deriving DecidableEq, Repr

/-- Source lines 367-382.  `reading` is `digitalRead(pin)`, `currentMillis` is `millis()`. -/
def debounceSwitch (reading : Int) (currentMillis : Nat) (lastState : Int)
    (lastDebounceTime : Nat) : Debounced :=
  let lastDebounceTime := if reading ≠ lastState then currentMillis else lastDebounceTime
  if usub currentMillis lastDebounceTime ≥ SWITCH_DEBOUNCE_DELAY then
    if reading ≠ lastState then
      { changed := true, lastState := reading, lastDebounceTime := lastDebounceTime }
    else
      { changed := false, lastState := lastState, lastDebounceTime := lastDebounceTime }
  else
    { changed := false, lastState := lastState, lastDebounceTime := lastDebounceTime }

/-- Signature of a debouncer: reading, clock, accepted state and change time in, result
out.  `loopWith` takes the debouncer as a parameter so that properties of the loop can be
stated over the edge events a debouncer reports. -/
abbrev Debouncer := Int → Nat → Int → Nat → Debounced

/-- Debouncer of the input contract: it reports a change, and commits the reading, on
every call whose reading differs from the accepted state.  It serves to feed edge events
to `loopWith`; the sketch itself runs `debounceSwitch`. -/
def edgeDebounce : Debouncer := fun reading currentMillis lastState lastDebounceTime =>
  if reading ≠ lastState then
    { changed := true, lastState := reading, lastDebounceTime := currentMillis }
  else
    { changed := false, lastState := lastState, lastDebounceTime := lastDebounceTime }

/-- Runs `debounceSwitch` over a sequence of calls, given as (reading, clock) pairs, and
collects the returned flags; the final accepted state and change time are returned too. -/
def debounceRun : List (Int × Nat) → Int → Nat → List Bool × Int × Nat
  | [], lastState, lastDebounceTime => ([], lastState, lastDebounceTime)
  | (reading, t) :: rest, lastState, lastDebounceTime =>
    let r := debounceSwitch reading t lastState lastDebounceTime
    let q := debounceRun rest r.lastState r.lastDebounceTime
    (r.changed :: q.1, q.2)

/-! ## Displays -/

/-- Source lines 359-365. -/
def clearDisplays (s : State) : State :=
  let s := emit .mainSetDigits s
  (List.range (NUM_DISPLAYS - 1)).foldl (fun s i => emit (.lpdSetDigits i) s) s

/-- Segment patterns of `startupAnimation` (source lines 214-225). -/
def patterns : List Nat :=
  [0b00111111, 0b00000110, 0b01011011, 0b01001111, 0b01100110,
   0b01101101, 0b01111101, 0b00000111, 0b01111111, 0b01101111]

/-- Source lines 212-238; `frameDuration` is `1000 / 10`. -/
def startupAnimation (s : State) : State :=
  let s := patterns.foldl
    (fun s p =>
      let s := emit (.mainSegments p) s
      let s := (List.range (NUM_DISPLAYS - 1)).foldl (fun s j => emit (.lpdSegments j p) s) s
      delay (1000 / 10) s)
    s
  clearDisplays s

/-! ## Handshake -/

/-- Body of the `while` loop of `establishConnection` (source lines 245-260), iterated.
The first argument bounds the number of iterations, `k` counts the `irrecv.decode`
calls made so far. -/
def establishConnectionLoop (rx : Nat → Option Nat) (startTime : Nat) :
    Nat → Nat → State → State
  | 0, _, s => s
  | fuel + 1, k, s =>
    if !s.connectionEstablished && s.systemOn &&
        decide (usub (millis s) startTime < CONNECTION_TIMEOUT) then
      let s := emit (.irSend IR_CONNECTION_REQUEST 32 38) s
      let s := delay 100 s
      let s :=
        match rx k with
        | some value =>
          if value = IR_CONNECTION_REPLY then
            let s := { s with connectionEstablished := true }
            let s := digitalWrite LED1 HIGH s
            digitalWrite LED2 LOW s
          else s
        | none => s
      establishConnectionLoop rx startTime fuel (k + 1) s
    else s

/-- Source lines 240-267.  Every iteration of the `while` loop advances the clock by
100 ms, so the loop condition fails after at most 50 iterations
(`establishConnection_loop_exits`). -/
def establishConnection (rx : Nat → Option Nat) (s : State) : State :=
  let startTime := millis s
  let s := { s with connectionEstablished := false }
  let s := digitalWrite LED2 HIGH s
  let s := establishConnectionLoop rx startTime 50 0 s
  if !s.connectionEstablished then
    let s := digitalWrite LED2 HIGH s
    digitalWrite LED1 LOW s
  else s

/-- Source lines 273-281: a received message is decoded and dropped. -/
def receiveIRMessage (rx : Option Nat) (s : State) : State :=
  match rx with
  | some value => if value = IR_CONNECTION_REPLY then s else s
  | none => s

/-- Source lines 269-271. -/
def handleIRCommunication (rx : Option Nat) (s : State) : State := receiveIRMessage rx s

/-! ## Launch sequence -/

/-- Source lines 283-287. -/
def readLaunchSwitches (pins : Nat → Int) (s : State) : State :=
  (List.range NUM_LAUNCH_SYSTEMS).foldl
    (fun s i => { s with launchSwitchStates := setAt s.launchSwitchStates i (pins i) }) s

/-- Source lines 289-299. -/
def startLaunchSequence (s : State) : State :=
  let s := { s with launchSequenceRunning := true, currentPad := 0, mainCountdownStartTime := 0 }
  (List.range NUM_LAUNCH_SYSTEMS).foldl
    (fun s i =>
      { s with
        padTimerStartTime := setAt s.padTimerStartTime i 0
        padSecondsElapsed := setAt s.padSecondsElapsed i 0
        padTimerFrozen := setAt s.padTimerFrozen i false })
    s

/-- Countdown branch of `runLaunchSequence` (source lines 312-332), entered with
`timeRemaining > 0`. -/
def countdownTick (timeRemaining : Int) (s : State) : State :=
  let secondsRemaining := toInt (timeRemaining.tdiv 1000)
  let displayValue := toInt (secondsRemaining * 100 + secondsRemaining)
  let s := emit (.mainDisplay displayValue) s
  let s :=
    if s.padTimerStartTime s.currentPad = 0 then
      { s with padTimerStartTime := setAt s.padTimerStartTime s.currentPad (millis s) }
    else s
  let s :=
    if !s.padTimerFrozen s.currentPad then
      let padTimeElapsed := toLong (usub (millis s) (s.padTimerStartTime s.currentPad))
      { s with
        padSecondsElapsed := setAt s.padSecondsElapsed s.currentPad (toInt (padTimeElapsed.tdiv 1000)) }
    else s
  let padDisplayValue :=
    toInt (((s.padSecondsElapsed s.currentPad).tdiv 10).tmod 10 * 10
      + (s.padSecondsElapsed s.currentPad).tmod 10)
  emit (.lpdDisplay s.currentPad padDisplayValue) s

/-- Firing branch of `runLaunchSequence` (source lines 334-343). -/
def firePad (s : State) : State :=
  let s := emit (.mainDisplay 0) s
  let s := emit (.lpdDisplay s.currentPad 0) s
  let s := emit (.irSend IR_LAUNCH_MESSAGE 32 38) s
  let s := delay 100 s
  { s with currentPad := s.currentPad + 1, mainCountdownStartTime := 0 }

/-- Source lines 301-357. -/
def runLaunchSequence (s : State) : State :=
  if s.currentPad < NUM_LAUNCH_SYSTEMS then
    if s.launchSwitchStates s.currentPad = LOW then
      let s :=
        if s.mainCountdownStartTime = 0 then { s with mainCountdownStartTime := millis s } else s
      let timeRemaining : Int :=
        toLong (usub mainCountdownDuration (usub (millis s) s.mainCountdownStartTime))
      if timeRemaining > 0 then countdownTick timeRemaining s else firePad s
    else
      { s with
        padTimerFrozen := setAt s.padTimerFrozen s.currentPad true
        currentPad := s.currentPad + 1
        mainCountdownStartTime := 0 }
  else
    clearDisplays { s with launchSequenceRunning := false }

/-! ## `setup` and `loop` -/

/-- Initial values of the globals followed by `setup()` (source lines 54-84, 96-136). -/
def setup : State :=
  let s : State :=
    { keySwitchState := HIGH
      enableSwitchState := HIGH
      systemOn := false
      launchEnabled := false
      connectionEstablished := false
      launchButtonState := HIGH
      emergencyStopState := HIGH
      systemStopped := false
      launchSwitchStates := fun _ => 0
      launchSequenceRunning := false
      currentPad := 0
      mainCountdownStartTime := 0
      padTimerStartTime := fun _ => 0
      padSecondsElapsed := fun _ => 0
      padTimerFrozen := fun _ => false
      lastDebounceTime := fun _ => 0
      led1 := false
      led2 := false
      clock := 0
      out := [] }
  let s := digitalWrite LED1 LOW s
  digitalWrite LED2 LOW s

/-- Emergency-stop block of `loop` (source lines 139-154). -/
def loopEmergencyStop (db : Debouncer) (inp : Input) (s : State) : State :=
  let r := db inp.emergencyStop (millis s) s.emergencyStopState (s.lastDebounceTime 3)
  let s :=
    { s with
      emergencyStopState := r.lastState
      lastDebounceTime := setAt s.lastDebounceTime 3 r.lastDebounceTime }
  if r.changed then
    if s.emergencyStopState = LOW then
      let s := { s with systemStopped := !s.systemStopped }
      if s.systemStopped then
        let s := digitalWrite LED1 LOW s
        let s := digitalWrite LED2 LOW s
        let s := clearDisplays s
        { s with launchSequenceRunning := false }
      else s
    else s
  else s

/-- Key-switch block of `loop` (source lines 161-179). -/
def loopKeySwitch (db : Debouncer) (inp : Input) (s : State) : State :=
  let r := db inp.keySwitch (millis s) s.keySwitchState (s.lastDebounceTime 0)
  let s :=
    { s with
      keySwitchState := r.lastState
      lastDebounceTime := setAt s.lastDebounceTime 0 r.lastDebounceTime }
  if r.changed then
    if s.keySwitchState = LOW then
      if !s.systemOn then
        let s := { s with systemOn := true }
        let s := startupAnimation s
        establishConnection inp.rxHandshake s
      else s
    else
      let s :=
        { s with
          systemOn := false
          launchEnabled := false
          connectionEstablished := false
          launchSequenceRunning := false }
      let s := digitalWrite LED1 LOW s
      let s := digitalWrite LED2 LOW s
      clearDisplays s
  else s

/-- Enable-switch block of `loop` (source lines 181-184). -/
def loopEnableSwitch (db : Debouncer) (inp : Input) (s : State) : State :=
  let r := db inp.enableSwitch (millis s) s.enableSwitchState (s.lastDebounceTime 1)
  let s :=
    { s with
      enableSwitchState := r.lastState
      lastDebounceTime := setAt s.lastDebounceTime 1 r.lastDebounceTime }
  if r.changed then { s with launchEnabled := decide (s.enableSwitchState = LOW) } else s

/-- Pad-switch block of `loop` (source lines 186-189). -/
def loopReadSwitches (inp : Input) (s : State) : State :=
  if s.systemOn then readLaunchSwitches inp.launchSwitches s else s

/-- Launch-button block of `loop` (source lines 191-199). -/
def loopLaunchButton (db : Debouncer) (inp : Input) (s : State) : State :=
  let r := db inp.launchButton (millis s) s.launchButtonState (s.lastDebounceTime 2)
  let s :=
    { s with
      launchButtonState := r.lastState
      lastDebounceTime := setAt s.lastDebounceTime 2 r.lastDebounceTime }
  if r.changed then
    if s.launchEnabled && decide (s.launchButtonState = LOW) then
      if !s.launchSequenceRunning then startLaunchSequence s else s
    else s
  else s

/-- State of `loop` on reaching the launch-button block (source line 192), for an
iteration that passed the `systemStopped` check. -/
def loopBeforeLaunch (db : Debouncer) (inp : Input) (s : State) : State :=
  loopReadSwitches inp (loopEnableSwitch db inp (loopKeySwitch db inp (loopEmergencyStop db inp s)))

/-- Tail of `loop` after the launch-button block (source lines 201-209). -/
def loopTail (inp : Input) (s : State) : State :=
  let s := if s.launchSequenceRunning then runLaunchSequence s else s
  if s.systemOn then handleIRCommunication inp.rxLoop s else s

/-- Source lines 138-210, with the debouncer as a parameter. -/
def loopWith (db : Debouncer) (inp : Input) (s : State) : State :=
  let s1 := loopEmergencyStop db inp s
  if s1.systemStopped then s1
  else loopTail inp (loopLaunchButton db inp (loopBeforeLaunch db inp s))

/-- The function `loop` of the sketch: `loopWith` with the sketch's own `debounceSwitch`. -/
def loop (inp : Input) (s : State) : State := loopWith debounceSwitch inp s

/-- One scheduling step: `x.1` milliseconds pass, then `loopWith db` runs once on the
readings `x.2`. -/
def stepWith (db : Debouncer) (x : Nat × Input) (s : State) : State :=
  loopWith db x.2 (delay x.1 s)

/-- Runs a sequence of scheduling steps, oldest first. -/
def runWith (db : Debouncer) (xs : List (Nat × Input)) (s : State) : State :=
  xs.foldl (fun s x => stepWith db x s) s

/-- Code, bit count and carrier frequency of the infrared transmissions in a log. -/
def messages (l : List (Nat × Effect)) : List (Nat × Nat × Nat) :=
  l.filterMap fun e =>
    match e.2 with
    | .irSend code bits khz => some (code, bits, khz)
    | _ => none

/-! ## Concrete inputs and states -/

/-- Readings with every operator input released and every pad switch engaged. -/
def idle : Input :=
  { emergencyStop := HIGH
    keySwitch := HIGH
    enableSwitch := HIGH
    launchButton := HIGH
    launchSwitches := fun _ => LOW
    rxHandshake := fun _ => none
    rxLoop := none }

/-- Key switch closed; the pad computer answers the third connection request. -/
def keyOn : Input :=
  { idle with
    keySwitch := LOW
    rxHandshake := fun k => if k = 2 then some IR_CONNECTION_REPLY else none }

/-- Key switch closed, enable switch on, launch button down. -/
def press : Input := { keyOn with enableSwitch := LOW, launchButton := LOW }

/-- Same as `press`, with the switch of pad 0 disengaged. -/
def pressPadOff : Input := { press with launchSwitches := fun i => if i = 0 then HIGH else LOW }

/-- Same as `press`, with the emergency-stop button down. -/
def pressStop : Input := { press with emergencyStop := LOW }

/-- Enable switch on and launch button down while the key switch stays open. -/
def pressKeyOff : Input := { idle with enableSwitch := LOW, launchButton := LOW }

/-- State after the key switch was closed and the handshake succeeded. -/
def armed : State := runWith edgeDebounce [(0, keyOn)] setup

/-- State 100 ms later, after the launch button was pressed with the enable switch on:
the sequence runs and pad 0 counts down from clock value 1400. -/
def counting : State := runWith edgeDebounce [(100, press)] armed

/-- State three ticks later: pad 0 showed 3 elapsed seconds at clock value 4400 and
fired at 6400, pad 1 counts down from clock value 6510. -/
def countingPad1 : State :=
  runWith edgeDebounce [(3000, press), (2000, press), (10, press)] counting

/-- State in which `runLaunchSequence` is called when `loop` runs `dt` ms after `base`
on the readings `inp`. -/
def atTick (base : State) (dt : Nat) (inp : Input) : State :=
  loopLaunchButton edgeDebounce inp (loopBeforeLaunch edgeDebounce inp (delay dt base))

/-- Calls of the bounce scenario: accepted state `HIGH`, the reading bounces
low/high/low within 10 ms and then stays `LOW` from 10 ms to 70 ms. -/
def bounceThenLow : List (Int × Nat) :=
  [(LOW, 0), (HIGH, 3), (LOW, 6), (LOW, 10), (LOW, 20), (LOW, 30), (LOW, 40), (LOW, 50),
   (LOW, 60), (LOW, 70)]

/-- Same as `press`, with the launch button released. -/
def releaseButton : Input := { press with launchButton := HIGH }

/-- Same as `press`, with the key switch open. -/
def keyOff : Input := { press with keySwitch := HIGH }

/-- State after the emergency stop was pressed 2000 ms into the countdown of pad 0 and
the button was let go again: the stop is active. -/
def stopped : State := runWith edgeDebounce [(2000, pressStop), (500, press)] counting

/-- State after the emergency-stop button was pressed a second time. -/
def released : State := stepWith edgeDebounce (500, pressStop) stopped

/-- Same as `pressKeyOff`, with every pad switch disengaged. -/
def pressKeyOffPadsOff : Input := { pressKeyOff with launchSwitches := fun _ => HIGH }

/-- Key switch closed; the pad computer never answers. -/
def keyOnNoReply : Input := { idle with keySwitch := LOW }

/-- Same as `keyOnNoReply`, with the enable switch on and the launch button down. -/
def pressNoReply : Input := { keyOnNoReply with enableSwitch := LOW, launchButton := LOW }

/-- State after the key switch was closed and the handshake timed out. -/
def linkFailed : State := runWith edgeDebounce [(0, keyOnNoReply)] setup

/-- Emergency-stop button down and key switch open in the same iteration. -/
def stopKeyOff : Input := { pressStop with keySwitch := HIGH }

/-! ## Projections used to state frame properties -/

/-- Forgets the fields `establishConnection` may write. -/
def State.handshakeErased (s : State) : State :=
  { s with connectionEstablished := false, led1 := false, led2 := false, clock := 0, out := [] }

/-- Forgets the fields `runLaunchSequence` may write. -/
def State.sequenceErased (s : State) : State :=
  { s with
    launchSequenceRunning := false
    currentPad := 0
    mainCountdownStartTime := 0
    padTimerStartTime := fun _ => 0
    padSecondsElapsed := fun _ => 0
    padTimerFrozen := fun _ => false
    clock := 0
    out := [] }

/-- Key state, connection state and the two indicators. -/
def State.linkView (s : State) : Bool × Bool × Bool × Bool :=
  (s.systemOn, s.connectionEstablished, s.led1, s.led2)

/-- Sequence position and pad timers. -/
def State.padView (s : State) :
    Nat × Nat × (Nat → Nat) × (Nat → Int) × (Nat → Bool) :=
  (s.currentPad, s.mainCountdownStartTime, s.padTimerStartTime, s.padSecondsElapsed,
    s.padTimerFrozen)

/-! ## Runs, ticks and derived quantities -/

/-- Runs a sequence of scheduling steps, each with its own debouncer behaviour: an element
`(db, dt, inp)` lets `dt` milliseconds pass and then runs `loopWith db` on `inp`. -/
def runSteps (xs : List (Debouncer × Nat × Input)) (s : State) : State :=
  xs.foldl (fun s x => stepWith x.1 x.2 s) s

/-- Runs the sketch's own `loop` over a sequence of scheduling steps `(dt, inp)`. -/
def runLoop (xs : List (Nat × Input)) (s : State) : State :=
  xs.foldl (fun s x => loop x.2 (delay x.1 s)) s

/-- Connection requests logged by `n` consecutive handshake iterations, the first at
clock value `c`. -/
def requestsFrom (c n : Nat) : List (Nat × Effect) :=
  (List.range n).map fun i => (c + 100 * i, Effect.irSend IR_CONNECTION_REQUEST 32 38)

/-- State in which `establishConnection` is entered when the key switch is closed for the
first time after `setup`. -/
def startingUp : State :=
  startupAnimation { setup with keySwitchState := LOW, systemOn := true }

/-- Start of the countdown used by a call of `runLaunchSequence` (source lines 305-307):
the stored start time, or `millis()` when none is stored. -/
def countdownStart (s : State) : Nat :=
  if s.mainCountdownStartTime = 0 then millis s else s.mainCountdownStartTime

/-- Value of `timeRemaining` computed by a call of `runLaunchSequence` (source line 310). -/
def timeRemaining (s : State) : Int :=
  toLong (usub mainCountdownDuration (usub (millis s) (countdownStart s)))

/-- Start of the current pad's timer used by a countdown tick (source lines 320-322). -/
def padStart (s : State) : Nat :=
  if s.padTimerStartTime s.currentPad = 0 then millis s else s.padTimerStartTime s.currentPad

/-- Value of `padTimeElapsed` computed by a countdown tick (source line 324). -/
def padTimeElapsed (s : State) : Int :=
  toLong (usub (millis s) (padStart s))

/-- No pad from `currentPad` on is marked frozen. -/
def frozenAhead (s : State) : Prop :=
  ∀ j, s.currentPad ≤ j → j < NUM_LAUNCH_SYSTEMS → s.padTimerFrozen j = false

/-- Launch commands transmitted by the call of `runLaunchSequence` in state `s`, each as
(current pad, clock value, code). -/
def firings (s : State) : List (Nat × Nat × Nat) :=
  (sends (newOut s (runLaunchSequence s))).filterMap fun e =>
    match e.2 with
    | .irSend code _ _ => some (s.currentPad, e.1, code)
    | _ => none

/-- Iterates the sequencer as `loop` does while `launchSequenceRunning` is set: a tick
calls `runLaunchSequence`, then `d` ms pass until the next tick.  At most `n` ticks are
made; the result is the state reached and the launch commands transmitted on the way. -/
def runTicks (d : Nat) : Nat → State → State × List (Nat × Nat × Nat)
  | 0, s => (s, [])
  | n + 1, s =>
    if s.launchSequenceRunning then
      let r := runTicks d n (delay d (runLaunchSequence s))
      (r.1, firings s ++ r.2)
    else (s, [])

/-- Pad switch readings of the scenario: pad 2 disengaged, the others engaged. -/
def pressPad2Off : Input := { press with launchSwitches := fun i => if i = 2 then HIGH else LOW }

/-- State in which the launch button is pressed in the scenario, 100 ms after `armed`. -/
def scenarioArmed : State := loopBeforeLaunch edgeDebounce pressPad2Off (delay 100 armed)

/-- State of the scenario after 25 ticks at 1000 ms: all five pads are done. -/
def scenarioDone : State := (runTicks 1000 25 (startLaunchSequence scenarioArmed)).1

/-! ## Basic facts -/

theorem usub_of_le (a b : Nat) (ha : a < U32) (hb : b ≤ a) : usub a b = a - b := by
  unfold usub U32 at *
  omega

theorem usub_self_eq (a : Nat) : usub a a = 0 := by
  unfold usub U32
  omega

theorem millis_lt (s : State) : millis s < U32 := by
  unfold millis U32
  omega

/-- Within `2^31` ms of the start of a countdown, `timeRemaining` is `5000 - elapsed`. -/
theorem timeRemaining_eq (now start : Nat) (hnow : now < U32) (h1 : start ≤ now)
    (h2 : now - start < 2147483648) :
    toLong (usub mainCountdownDuration (usub now start)) = 5000 - ((now - start : Nat) : Int) := by
  rw [usub_of_le now start hnow h1]
  unfold toLong usub mainCountdownDuration U32 at *
  split <;> omega

theorem newOut_of_append (s t : State) (l : List (Nat × Effect)) (h : t.out = s.out ++ l) :
    newOut s t = l := by
  simp [newOut, h]

theorem firePad_out (s : State) :
    (firePad s).out = s.out ++
      [(s.clock, .mainDisplay 0), (s.clock, .lpdDisplay s.currentPad 0),
       (s.clock, .irSend IR_LAUNCH_MESSAGE 32 38)] := by
  simp [firePad, emit, delay]

theorem countdownTick_out (tr : Int) (s : State) :
    (countdownTick tr s).out = s.out ++
      [(s.clock, .mainDisplay (toInt (toInt (tr.tdiv 1000) * 100 + toInt (tr.tdiv 1000)))),
       (s.clock, .lpdDisplay s.currentPad
          (toInt ((((countdownTick tr s).padSecondsElapsed s.currentPad).tdiv 10).tmod 10 * 10
            + ((countdownTick tr s).padSecondsElapsed s.currentPad).tmod 10)))] := by
  by_cases h1 : s.padTimerStartTime s.currentPad = 0 <;>
    by_cases h2 : s.padTimerFrozen s.currentPad = true <;>
    simp [countdownTick, emit, h1, h2, setAt]

theorem countdownTick_currentPad (tr : Int) (s : State) :
    (countdownTick tr s).currentPad = s.currentPad := by
  by_cases h1 : s.padTimerStartTime s.currentPad = 0 <;>
    by_cases h2 : s.padTimerFrozen s.currentPad = true <;>
    simp [countdownTick, emit, h1, h2, setAt]

theorem countdownTick_mainCountdownStartTime (tr : Int) (s : State) :
    (countdownTick tr s).mainCountdownStartTime = s.mainCountdownStartTime := by
  by_cases h1 : s.padTimerStartTime s.currentPad = 0 <;>
    by_cases h2 : s.padTimerFrozen s.currentPad = true <;>
    simp [countdownTick, emit, h1, h2, setAt]

/-- With the countdown started at most `2^31` ms ago, the engaged branch fires exactly
when 5000 ms have elapsed. -/
theorem runLaunchSequence_engaged_eq (s : State) (hp : s.currentPad < NUM_LAUNCH_SYSTEMS)
    (he : s.launchSwitchStates s.currentPad = LOW) (h0 : s.mainCountdownStartTime ≠ 0)
    (hle : s.mainCountdownStartTime ≤ millis s)
    (hd : millis s - s.mainCountdownStartTime < 2147483648) :
    runLaunchSequence s =
      if millis s - s.mainCountdownStartTime < mainCountdownDuration then
        countdownTick (5000 - ((millis s - s.mainCountdownStartTime : Nat) : Int)) s
      else firePad s := by
  have htr := timeRemaining_eq (millis s) s.mainCountdownStartTime (millis_lt s) hle hd
  unfold runLaunchSequence
  simp only [hp, he, h0, if_true, if_false]
  rw [htr]
  unfold mainCountdownDuration
  by_cases h : millis s - s.mainCountdownStartTime < 5000
  · rw [if_pos h, if_pos (by omega)]
  · rw [if_neg h, if_neg (by omega)]

/-- The function `debounceSwitch` reports no change and keeps the accepted state. -/
theorem debounceSwitch_quiet (reading : Int) (now : Nat) (lastState : Int) (t0 : Nat) :
    (debounceSwitch reading now lastState t0).changed = false ∧
    (debounceSwitch reading now lastState t0).lastState = lastState := by
  unfold debounceSwitch
  by_cases h : reading = lastState
  · simp [h]
  · simp [h, usub_self_eq, SWITCH_DEBOUNCE_DELAY]

theorem sends_firePad (s : State) :
    sends (newOut s (firePad s)) = [(s.clock, .irSend IR_LAUNCH_MESSAGE 32 38)] := by
  rw [newOut_of_append s _ _ (firePad_out s)]
  simp [sends, Effect.isSend]

theorem sends_countdownTick (tr : Int) (s : State) :
    sends (newOut s (countdownTick tr s)) = [] := by
  rw [newOut_of_append s _ _ (countdownTick_out tr s)]
  simp [sends, Effect.isSend]

/-! ## Frame lemmas and the loop -/

theorem clearDisplays_eq (s : State) :
    clearDisplays s = { s with out := s.out ++
      [(s.clock, .mainSetDigits), (s.clock, .lpdSetDigits 0), (s.clock, .lpdSetDigits 1),
       (s.clock, .lpdSetDigits 2), (s.clock, .lpdSetDigits 3), (s.clock, .lpdSetDigits 4)] } := by
  simp [clearDisplays, emit, NUM_DISPLAYS, List.range, List.range.loop]

theorem digitalWrite_handshakeErased (pin : Nat) (level : Int) (s : State) :
    (digitalWrite pin level s).handshakeErased = s.handshakeErased := by
  unfold digitalWrite
  split
  · rfl
  · split <;> rfl

theorem establishConnectionLoop_handshakeErased (rx : Nat → Option Nat) (startTime fuel : Nat) :
    ∀ (k : Nat) (s : State),
      (establishConnectionLoop rx startTime fuel k s).handshakeErased = s.handshakeErased := by
  induction fuel with
  | zero => intro k s; rfl
  | succ n ih =>
    intro k s
    unfold establishConnectionLoop
    split
    · rw [ih]
      split
      · split
        · rw [digitalWrite_handshakeErased, digitalWrite_handshakeErased]; rfl
        · rfl
      · rfl
    · rfl

theorem establishConnection_handshakeErased (rx : Nat → Option Nat) (s : State) :
    (establishConnection rx s).handshakeErased = s.handshakeErased := by
  unfold establishConnection
  simp only
  split
  · rw [digitalWrite_handshakeErased, digitalWrite_handshakeErased,
      establishConnectionLoop_handshakeErased, digitalWrite_handshakeErased]; rfl
  · rw [establishConnectionLoop_handshakeErased, digitalWrite_handshakeErased]; rfl

theorem digitalWrite_clock (pin : Nat) (level : Int) (s : State) :
    (digitalWrite pin level s).clock = s.clock := by
  unfold digitalWrite
  split
  · rfl
  · split <;> rfl

theorem usub_millis_delay (s : State) (start n : Nat)
    (h : usub (millis s) start + n < U32) :
    usub (millis (delay n s)) start = usub (millis s) start + n := by
  unfold usub millis delay U32 at *
  simp only at *
  omega

/-- The bound on the iterations of the handshake loop is never what stops it: when the
bounded loop returns, the condition of the `while` statement is false. -/
theorem establishConnectionLoop_exits (rx : Nat → Option Nat) (startTime fuel : Nat) :
    ∀ (k : Nat) (s : State), CONNECTION_TIMEOUT ≤ usub (millis s) startTime + 100 * fuel →
      (!(establishConnectionLoop rx startTime fuel k s).connectionEstablished &&
        (establishConnectionLoop rx startTime fuel k s).systemOn &&
        decide (usub (millis (establishConnectionLoop rx startTime fuel k s)) startTime
          < CONNECTION_TIMEOUT)) = false := by
  induction fuel with
  | zero =>
    intro k s h
    have : ¬ usub (millis s) startTime < CONNECTION_TIMEOUT := by omega
    simp [establishConnectionLoop, this]
  | succ n ih =>
    intro k s h
    unfold establishConnectionLoop
    split
    next hc =>
      apply ih
      have hlt : usub (millis s) startTime < CONNECTION_TIMEOUT := by
        simp only [Bool.and_eq_true, decide_eq_true_eq] at hc
        exact hc.2
      have hm : ∀ t : State, t.clock = s.clock + 100 →
          CONNECTION_TIMEOUT ≤ usub (millis t) startTime + 100 * n := by
        intro t ht
        have h2 := usub_millis_delay s startTime 100
          (by unfold CONNECTION_TIMEOUT at hlt; unfold U32; omega)
        have h3 : millis t = millis (delay 100 s) := by
          unfold millis delay; rw [ht]
        rw [h3, h2]
        omega
      apply hm
      split
      · split
        · rw [digitalWrite_clock, digitalWrite_clock]; rfl
        · rfl
      · rfl
    next hc =>
      simpa using hc

/-- In `establishConnection` the `while` loop, run with the bound 50, ends because its
condition fails. -/
theorem establishConnection_loop_exits (rx : Nat → Option Nat) (s : State) :
    (!(establishConnectionLoop rx (millis s) 50 0
          (digitalWrite LED2 HIGH { s with connectionEstablished := false })).connectionEstablished &&
        (establishConnectionLoop rx (millis s) 50 0
          (digitalWrite LED2 HIGH { s with connectionEstablished := false })).systemOn &&
        decide (usub (millis (establishConnectionLoop rx (millis s) 50 0
          (digitalWrite LED2 HIGH { s with connectionEstablished := false }))) (millis s)
          < CONNECTION_TIMEOUT)) = false := by
  apply establishConnectionLoop_exits
  unfold CONNECTION_TIMEOUT
  omega

theorem foldl_handshakeErased {α : Type} (f : State → α → State)
    (hf : ∀ s a, (f s a).handshakeErased = s.handshakeErased) (l : List α) (s : State) :
    (l.foldl f s).handshakeErased = s.handshakeErased := by
  induction l generalizing s with
  | nil => rfl
  | cons a rest ih => rw [List.foldl_cons, ih, hf]

theorem clearDisplays_handshakeErased (s : State) :
    (clearDisplays s).handshakeErased = s.handshakeErased := by
  rw [clearDisplays_eq]; rfl

theorem startupAnimation_handshakeErased (s : State) :
    (startupAnimation s).handshakeErased = s.handshakeErased := by
  unfold startupAnimation
  rw [clearDisplays_handshakeErased]
  apply foldl_handshakeErased
  intro s p
  have h := foldl_handshakeErased (fun s j => emit (Effect.lpdSegments j p) s)
    (fun _ _ => rfl) (List.range (NUM_DISPLAYS - 1)) (emit (Effect.mainSegments p) s)
  exact h

theorem countdownTick_sequenceErased (tr : Int) (s : State) :
    (countdownTick tr s).sequenceErased = s.sequenceErased := by
  by_cases h1 : s.padTimerStartTime s.currentPad = 0 <;>
    by_cases h2 : s.padTimerFrozen s.currentPad = true <;>
    simp [countdownTick, emit, h1, h2, setAt, State.sequenceErased]

theorem firePad_sequenceErased (s : State) :
    (firePad s).sequenceErased = s.sequenceErased := by
  simp [firePad, emit, delay, State.sequenceErased]

theorem runLaunchSequence_sequenceErased (s : State) :
    (runLaunchSequence s).sequenceErased = s.sequenceErased := by
  unfold runLaunchSequence
  simp only
  split_ifs
  · rw [countdownTick_sequenceErased]; simp [State.sequenceErased]
  · rw [firePad_sequenceErased]; simp [State.sequenceErased]
  · rw [countdownTick_sequenceErased]
  · rw [firePad_sequenceErased]
  · simp [State.sequenceErased]
  · rw [clearDisplays_eq]; simp [State.sequenceErased]

theorem startLaunchSequence_eq (s : State) :
    startLaunchSequence s =
      { s with
        launchSequenceRunning := true
        currentPad := 0
        mainCountdownStartTime := 0
        padTimerStartTime := (startLaunchSequence s).padTimerStartTime
        padSecondsElapsed := (startLaunchSequence s).padSecondsElapsed
        padTimerFrozen := (startLaunchSequence s).padTimerFrozen } := by
  rfl

theorem readLaunchSwitches_eq (pins : Nat → Int) (s : State) :
    readLaunchSwitches pins s =
      { s with launchSwitchStates := (readLaunchSwitches pins s).launchSwitchStates } := by
  rfl

theorem establishConnection_running (rx : Nat → Option Nat) (s : State) :
    (establishConnection rx s).launchSequenceRunning = s.launchSequenceRunning := by
  have h := congrArg State.launchSequenceRunning (establishConnection_handshakeErased rx s)
  simpa only [State.handshakeErased] using h

theorem startupAnimation_running (s : State) :
    (startupAnimation s).launchSequenceRunning = s.launchSequenceRunning := by
  have h := congrArg State.launchSequenceRunning (startupAnimation_handshakeErased s)
  simpa only [State.handshakeErased] using h

theorem loopEmergencyStop_running (db : Debouncer) (inp : Input) (s : State)
    (h : (loopEmergencyStop db inp s).launchSequenceRunning = true) :
    s.launchSequenceRunning = true := by
  unfold loopEmergencyStop at h
  simp only [clearDisplays_eq, digitalWrite, emit] at h
  split_ifs at h <;> simp_all

theorem loopKeySwitch_running (db : Debouncer) (inp : Input) (s : State)
    (h : (loopKeySwitch db inp s).launchSequenceRunning = true) :
    s.launchSequenceRunning = true := by
  unfold loopKeySwitch at h
  simp only [clearDisplays_eq, digitalWrite, emit] at h
  split_ifs at h
  · rw [establishConnection_running, startupAnimation_running] at h
    exact h
  all_goals exact h

theorem loopEnableSwitch_running (db : Debouncer) (inp : Input) (s : State) :
    (loopEnableSwitch db inp s).launchSequenceRunning = s.launchSequenceRunning := by
  unfold loopEnableSwitch
  simp only
  split_ifs <;> rfl

theorem loopReadSwitches_running (inp : Input) (s : State) :
    (loopReadSwitches inp s).launchSequenceRunning = s.launchSequenceRunning := by
  unfold loopReadSwitches
  split_ifs <;> rfl

theorem loopBeforeLaunch_running (db : Debouncer) (inp : Input) (s : State)
    (h : (loopBeforeLaunch db inp s).launchSequenceRunning = true) :
    s.launchSequenceRunning = true := by
  unfold loopBeforeLaunch at h
  rw [loopReadSwitches_running, loopEnableSwitch_running] at h
  exact loopEmergencyStop_running db inp s (loopKeySwitch_running db inp _ h)

theorem countdownTick_running (tr : Int) (s : State) :
    (countdownTick tr s).launchSequenceRunning = s.launchSequenceRunning := by
  by_cases h1 : s.padTimerStartTime s.currentPad = 0 <;>
    by_cases h2 : s.padTimerFrozen s.currentPad = true <;>
    simp [countdownTick, emit, h1, h2, setAt]

theorem runLaunchSequence_running (s : State)
    (h : (runLaunchSequence s).launchSequenceRunning = true) :
    s.launchSequenceRunning = true := by
  unfold runLaunchSequence at h
  simp only [clearDisplays_eq] at h
  split_ifs at h <;> simp_all [countdownTick_running, firePad, emit, delay]

theorem runLaunchSequence_launchEnabled (s : State) :
    (runLaunchSequence s).launchEnabled = s.launchEnabled := by
  have h := congrArg State.launchEnabled (runLaunchSequence_sequenceErased s)
  simpa only [State.sequenceErased] using h

theorem loopTail_running (inp : Input) (s : State)
    (h : (loopTail inp s).launchSequenceRunning = true) : s.launchSequenceRunning = true := by
  unfold loopTail handleIRCommunication receiveIRMessage at h
  by_cases hr : s.launchSequenceRunning = true
  · exact hr
  · simp only [hr] at h
    revert h
    simp only [Bool.false_eq_true, if_false]
    split_ifs <;> (try split) <;> simp_all

theorem loopTail_launchEnabled (inp : Input) (s : State) :
    (loopTail inp s).launchEnabled = s.launchEnabled := by
  unfold loopTail handleIRCommunication receiveIRMessage
  simp only
  split_ifs <;> (try split) <;> simp [runLaunchSequence_launchEnabled]

theorem startLaunchSequence_launchEnabled (s : State) :
    (startLaunchSequence s).launchEnabled = s.launchEnabled := rfl

theorem runLaunchSequence_linkView (s : State) :
    (runLaunchSequence s).linkView = s.linkView := by
  have h := congrArg State.linkView (runLaunchSequence_sequenceErased s)
  simpa only [State.sequenceErased, State.linkView] using h

theorem loopEnableSwitch_linkView (db : Debouncer) (inp : Input) (s : State) :
    (loopEnableSwitch db inp s).linkView = s.linkView := by
  unfold loopEnableSwitch
  simp only
  split_ifs <;> rfl

theorem loopReadSwitches_linkView (inp : Input) (s : State) :
    (loopReadSwitches inp s).linkView = s.linkView := by
  unfold loopReadSwitches
  split_ifs <;> rfl

theorem loopLaunchButton_linkView (db : Debouncer) (inp : Input) (s : State) :
    (loopLaunchButton db inp s).linkView = s.linkView := by
  unfold loopLaunchButton
  simp only
  split_ifs <;> rfl

theorem loopTail_linkView (inp : Input) (s : State) :
    (loopTail inp s).linkView = s.linkView := by
  unfold loopTail handleIRCommunication receiveIRMessage
  simp only
  split_ifs <;> (try split) <;> simp [runLaunchSequence_linkView]

theorem loopEmergencyStop_padView (db : Debouncer) (inp : Input) (s : State) :
    (loopEmergencyStop db inp s).padView = s.padView := by
  unfold loopEmergencyStop
  simp only [clearDisplays_eq, digitalWrite, emit]
  split_ifs <;> rfl

/-- Explicit form of the key-open branch. -/
theorem loopKeySwitch_open (db : Debouncer) (inp : Input) (s : State)
    (hk : (db inp.keySwitch (millis s) s.keySwitchState (s.lastDebounceTime 0)).changed = true)
    (hopen : (db inp.keySwitch (millis s) s.keySwitchState (s.lastDebounceTime 0)).lastState ≠ LOW) :
    loopKeySwitch db inp s =
      { s with
        keySwitchState :=
          (db inp.keySwitch (millis s) s.keySwitchState (s.lastDebounceTime 0)).lastState
        lastDebounceTime := setAt s.lastDebounceTime 0
          (db inp.keySwitch (millis s) s.keySwitchState (s.lastDebounceTime 0)).lastDebounceTime
        systemOn := false
        launchEnabled := false
        connectionEstablished := false
        launchSequenceRunning := false
        led1 := false
        led2 := false
        out := s.out ++
          [(s.clock, .digitalWrite LED1 LOW), (s.clock, .digitalWrite LED2 LOW),
           (s.clock, .mainSetDigits), (s.clock, .lpdSetDigits 0), (s.clock, .lpdSetDigits 1),
           (s.clock, .lpdSetDigits 2), (s.clock, .lpdSetDigits 3), (s.clock, .lpdSetDigits 4)] } := by
  unfold loopKeySwitch
  simp [hk, hopen, clearDisplays_eq, digitalWrite, emit, LED1, LED2]

/-! ## One iteration of the loop (C1 to C5) -/

set_option maxRecDepth 20000 in
/-- C1 (evaluation of the code at the failing inputs): a launch sequence starts, and launch
commands are transmitted, while the system is not armed.
(a) From the state left by `setup` (key switch never closed, no handshake), one loop
iteration in which the enable switch reads on and a launch-button press edge is reported
takes `launchSequenceRunning` from false to true while `systemOn` and
`connectionEstablished` are false before and after.
(b) With the key switch still open and every pad switch reading disengaged, eleven
iterations 5000 ms apart transmit five launch commands and complete the sequence; the pad
switches are never read, since `readLaunchSwitches` is called only when `systemOn` is true.
(c) After a handshake that timed out (`systemOn` true, `connectionEstablished` false, error
indicator on), the next press edge with the enable switch on starts the sequence, and
eleven iterations 5000 ms apart transmit five launch commands with
`connectionEstablished` still false. -/
theorem launch_starts_without_arming :
    (setup.launchSequenceRunning = false ∧
      setup.systemOn = false ∧
      setup.connectionEstablished = false ∧
      (loopWith edgeDebounce pressKeyOffPadsOff setup).launchSequenceRunning = true ∧
      (loopWith edgeDebounce pressKeyOffPadsOff setup).systemOn = false ∧
      (loopWith edgeDebounce pressKeyOffPadsOff setup).connectionEstablished = false) ∧
    ((∀ i, pressKeyOffPadsOff.launchSwitches i = HIGH) ∧
      messages (runWith edgeDebounce (List.replicate 11 (5000, pressKeyOffPadsOff)) setup).out =
        List.replicate 5 (IR_LAUNCH_MESSAGE, 32, 38) ∧
      (sends (runWith edgeDebounce (List.replicate 11 (5000, pressKeyOffPadsOff)) setup).out).map
        (fun e => e.1) = [10000, 20100, 30200, 40300, 50400] ∧
      (runWith edgeDebounce (List.replicate 11 (5000, pressKeyOffPadsOff)) setup).currentPad = 5 ∧
      (runWith edgeDebounce (List.replicate 11 (5000, pressKeyOffPadsOff)) setup).systemOn
        = false ∧
      (runWith edgeDebounce (List.replicate 11 (5000, pressKeyOffPadsOff))
        setup).connectionEstablished = false) ∧
    (linkFailed.systemOn = true ∧
      linkFailed.connectionEstablished = false ∧
      linkFailed.led1 = false ∧
      linkFailed.led2 = true ∧
      linkFailed.launchSequenceRunning = false ∧
      (stepWith edgeDebounce (100, pressNoReply) linkFailed).launchSequenceRunning = true ∧
      (stepWith edgeDebounce (100, pressNoReply) linkFailed).connectionEstablished = false ∧
      (messages
          (runWith edgeDebounce (List.replicate 11 (5000, pressNoReply)) linkFailed).out).filter
        (fun m => decide (m.1 = IR_LAUNCH_MESSAGE)) =
          List.replicate 5 (IR_LAUNCH_MESSAGE, 32, 38) ∧
      (runWith edgeDebounce (List.replicate 11 (5000, pressNoReply))
        linkFailed).connectionEstablished = false) := by
  refine ⟨by decide, ⟨fun i => rfl, by decide, by decide, by decide, by decide, by decide⟩,
    by decide, by decide, by decide, by decide, by decide, by decide, by decide, by decide,
    by decide⟩

/-- The guard the code does apply: a loop iteration takes `launchSequenceRunning` from
false to true only if the emergency-stop block leaves `systemStopped` false, the
launch-button debounce call of that iteration reports a change with accepted state `LOW`
(a press edge), and `launchEnabled` is true when the button is examined (and still at the
end of the iteration).  Neither `systemOn` nor `connectionEstablished` is consulted. -/
theorem launch_starts_only_on_enabled_press (db : Debouncer) (inp : Input) (s : State)
    (h0 : s.launchSequenceRunning = false)
    (h1 : (loopWith db inp s).launchSequenceRunning = true) :
    (loopEmergencyStop db inp s).systemStopped = false ∧
    (db inp.launchButton (millis (loopBeforeLaunch db inp s))
        (loopBeforeLaunch db inp s).launchButtonState
        ((loopBeforeLaunch db inp s).lastDebounceTime 2)).changed = true ∧
    (db inp.launchButton (millis (loopBeforeLaunch db inp s))
        (loopBeforeLaunch db inp s).launchButtonState
        ((loopBeforeLaunch db inp s).lastDebounceTime 2)).lastState = LOW ∧
    (loopBeforeLaunch db inp s).launchEnabled = true ∧
    (loopWith db inp s).launchEnabled = true := by
  have hne : ¬ s.launchSequenceRunning = true := by simp [h0]
  unfold loopWith at h1 ⊢
  simp only at h1 ⊢
  by_cases hst : (loopEmergencyStop db inp s).systemStopped = true
  · rw [if_pos hst] at h1
    exact absurd (loopEmergencyStop_running db inp s h1) hne
  · rw [if_neg hst] at h1
    rw [if_neg hst]
    have h2 := loopTail_running inp _ h1
    have hb : ¬ (loopBeforeLaunch db inp s).launchSequenceRunning = true :=
      fun h => hne (loopBeforeLaunch_running db inp s h)
    rw [loopTail_launchEnabled]
    generalize loopBeforeLaunch db inp s = b at h2 hb ⊢
    unfold loopLaunchButton at h2 ⊢
    simp only at h2 ⊢
    split_ifs at h2 ⊢ <;> simp_all [startLaunchSequence_launchEnabled]

/-- Instance of the guard at the state left by `setup`, with the key switch open, the
enable switch on and a launch-button press edge. -/
theorem launch_starts_only_on_enabled_press_witness :
    setup.launchSequenceRunning = false ∧
    (loopWith edgeDebounce pressKeyOff setup).launchSequenceRunning = true ∧
    (loopEmergencyStop edgeDebounce pressKeyOff setup).systemStopped = false ∧
    (loopBeforeLaunch edgeDebounce pressKeyOff setup).launchEnabled = true :=
  have h := launch_starts_only_on_enabled_press edgeDebounce pressKeyOff setup
    (by decide) (by decide)
  ⟨by decide, by decide, h.1, h.2.2.2.1⟩

/-- C2: for every state with `systemStopped` false and every debouncer, a loop iteration
whose emergency-stop debounce call reports a change with accepted state `LOW` (a press
edge) ends with `systemStopped` true, `launchSequenceRunning` false and both indicators
off, and the iteration transmits nothing, whatever `systemOn`, `connectionEstablished`,
`launchSequenceRunning`, `currentPad` and the countdown are. -/
theorem emergency_stop_press_halts (db : Debouncer) (inp : Input) (s : State)
    (hs : s.systemStopped = false)
    (hc : (db inp.emergencyStop (millis s) s.emergencyStopState (s.lastDebounceTime 3)).changed
      = true)
    (hl : (db inp.emergencyStop (millis s) s.emergencyStopState (s.lastDebounceTime 3)).lastState
      = LOW) :
    (loopWith db inp s).systemStopped = true ∧
    (loopWith db inp s).launchSequenceRunning = false ∧
    (loopWith db inp s).led1 = false ∧
    (loopWith db inp s).led2 = false ∧
    sends (newOut s (loopWith db inp s)) = [] := by
  have heq : loopEmergencyStop db inp s =
      { s with
        emergencyStopState := LOW
        lastDebounceTime := setAt s.lastDebounceTime 3
          (db inp.emergencyStop (millis s) s.emergencyStopState (s.lastDebounceTime 3)).lastDebounceTime
        systemStopped := true
        launchSequenceRunning := false
        led1 := false
        led2 := false
        out := s.out ++
          [(s.clock, .digitalWrite LED1 LOW), (s.clock, .digitalWrite LED2 LOW),
           (s.clock, .mainSetDigits), (s.clock, .lpdSetDigits 0), (s.clock, .lpdSetDigits 1),
           (s.clock, .lpdSetDigits 2), (s.clock, .lpdSetDigits 3), (s.clock, .lpdSetDigits 4)] } := by
    unfold loopEmergencyStop
    simp [hc, hl, hs, clearDisplays_eq, digitalWrite, emit, LED1, LED2]
  have hw : loopWith db inp s = loopEmergencyStop db inp s := by
    unfold loopWith
    simp [heq]
  rw [hw, heq]
  refine ⟨rfl, rfl, rfl, rfl, ?_⟩
  rw [newOut_of_append s _ _ rfl]
  simp [sends, Effect.isSend]

/-- Witness for C2: the emergency stop is pressed in the iteration in which the countdown
of pad 0 has expired; without the press that iteration sends the launch command. -/
theorem emergency_stop_press_halts_witness :
    (delay 5000 counting).launchSequenceRunning = true ∧
    messages (newOut (delay 5000 counting) (loopWith edgeDebounce press (delay 5000 counting)))
      = [(IR_LAUNCH_MESSAGE, 32, 38)] ∧
    (loopWith edgeDebounce pressStop (delay 5000 counting)).systemStopped = true ∧
    (loopWith edgeDebounce pressStop (delay 5000 counting)).launchSequenceRunning = false ∧
    sends (newOut (delay 5000 counting) (loopWith edgeDebounce pressStop (delay 5000 counting)))
      = [] :=
  have h := emergency_stop_press_halts edgeDebounce pressStop (delay 5000 counting)
    (by decide) (by decide) (by decide)
  ⟨by decide, by decide, h.1, h.2.1, h.2.2.2.2⟩

/-- C3 (evaluation of the code at the failing input): in the state `stopped` the stop is
active with the system armed.  The iteration with the second emergency-stop press edge
clears `systemStopped` and leaves `systemOn`, `connectionEstablished` and `launchEnabled`
true; the launch button is then let go and pressed again, and the sequence starts while
the key switch has stayed closed (accepted state `LOW`) all along. -/
theorem stop_release_stays_armed_and_relaunches :
    stopped.systemStopped = true ∧
    released.systemStopped = false ∧
    released.systemOn = true ∧
    released.connectionEstablished = true ∧
    released.launchEnabled = true ∧
    released.launchSequenceRunning = false ∧
    released.keySwitchState = LOW ∧
    (stepWith edgeDebounce (500, releaseButton) released).keySwitchState = LOW ∧
    (stepWith edgeDebounce (500, releaseButton) released).launchSequenceRunning = false ∧
    (runWith edgeDebounce [(500, releaseButton), (500, press)] released).keySwitchState = LOW ∧
    (runWith edgeDebounce [(500, releaseButton), (500, press)] released).launchSequenceRunning
      = true := by
  decide

/-- C5 (counterexample): in the state `stopped` (`systemStopped` and `systemOn` true) a
loop iteration reads the key switch open, which the debouncer would accept as an open
edge, and has no emergency-stop edge; it ends with `systemOn` and `connectionEstablished`
still true. -/
theorem key_open_ignored_while_stopped :
    stopped.systemStopped = true ∧
    stopped.systemOn = true ∧
    (edgeDebounce keyOff.emergencyStop (millis stopped) stopped.emergencyStopState
      (stopped.lastDebounceTime 3)).changed = false ∧
    (edgeDebounce keyOff.keySwitch (millis stopped) stopped.keySwitchState
      (stopped.lastDebounceTime 0)) = { changed := true, lastState := HIGH, lastDebounceTime := 3900 } ∧
    (loopWith edgeDebounce keyOff stopped).systemOn = true ∧
    (loopWith edgeDebounce keyOff stopped).connectionEstablished = true := by
  decide

/-- The emergency-stop block leaves the key state, the connection state and the key-switch
debounce data alone. -/
theorem loopEmergencyStop_key (db : Debouncer) (inp : Input) (s : State) :
    (loopEmergencyStop db inp s).systemOn = s.systemOn ∧
    (loopEmergencyStop db inp s).connectionEstablished = s.connectionEstablished ∧
    (loopEmergencyStop db inp s).keySwitchState = s.keySwitchState ∧
    (loopEmergencyStop db inp s).lastDebounceTime 0 = s.lastDebounceTime 0 := by
  unfold loopEmergencyStop
  simp only [clearDisplays_eq, digitalWrite, emit]
  split_ifs <;> simp [setAt]

/-- What the emergency-stop block does to `systemStopped`: a press edge toggles it, anything
else leaves it. -/
theorem loopEmergencyStop_systemStopped (db : Debouncer) (inp : Input) (s : State) :
    (loopEmergencyStop db inp s).systemStopped =
      if (db inp.emergencyStop (millis s) s.emergencyStopState (s.lastDebounceTime 3)).changed
          = true ∧
        (db inp.emergencyStop (millis s) s.emergencyStopState (s.lastDebounceTime 3)).lastState
          = LOW
      then !s.systemStopped else s.systemStopped := by
  unfold loopEmergencyStop
  simp only [clearDisplays_eq, digitalWrite, emit]
  split_ifs <;> simp_all

/-- The key-switch block switches the system off only on an open edge. -/
theorem loopKeySwitch_systemOn_of_quiet (db : Debouncer) (inp : Input) (s : State)
    (h : ¬ ((db inp.keySwitch (millis s) s.keySwitchState (s.lastDebounceTime 0)).changed = true ∧
      (db inp.keySwitch (millis s) s.keySwitchState (s.lastDebounceTime 0)).lastState ≠ LOW))
    (hon : s.systemOn = true) :
    (loopKeySwitch db inp s).systemOn = true := by
  unfold loopKeySwitch
  simp only
  split_ifs with h1 h2 h3
  · simp at h3; rw [hon] at h3; simp at h3
  · exact hon
  · exact absurd ⟨h1, h2⟩ h
  · exact hon

/-- C5 (amended): the key-switch reset is honoured only while the emergency stop is not
active.  For every state and every debouncer, of one loop iteration:
(1) if `systemStopped` is true after the emergency-stop block, the iteration returns before
the key switch is read: it ends with `systemStopped` true and with `systemOn`,
`connectionEstablished`, the accepted key-switch state and its change time unchanged,
whatever the key switch reads;
(2) `systemStopped` is true after the emergency-stop block when it was true on entry and no
emergency-stop press edge is reported, and
(3) when it was false on entry and a press edge is reported (the iteration in which the
stop is pressed);
(4) the iteration takes `systemOn` from true to false only if `systemStopped` is false
after the emergency-stop block and a key-switch open edge is reported;
(5) if `systemStopped` is false after the emergency-stop block, a key-switch open edge
ends the iteration with `systemOn` and `connectionEstablished` false. -/
theorem key_switch_not_read_while_stopped (db : Debouncer) (inp : Input) (s : State) :
    ((loopEmergencyStop db inp s).systemStopped = true →
      (loopWith db inp s).systemStopped = true ∧
      (loopWith db inp s).systemOn = s.systemOn ∧
      (loopWith db inp s).connectionEstablished = s.connectionEstablished ∧
      (loopWith db inp s).keySwitchState = s.keySwitchState ∧
      (loopWith db inp s).lastDebounceTime 0 = s.lastDebounceTime 0) ∧
    (s.systemStopped = true →
      ¬ ((db inp.emergencyStop (millis s) s.emergencyStopState
            (s.lastDebounceTime 3)).changed = true ∧
          (db inp.emergencyStop (millis s) s.emergencyStopState
            (s.lastDebounceTime 3)).lastState = LOW) →
      (loopEmergencyStop db inp s).systemStopped = true) ∧
    (s.systemStopped = false →
      (db inp.emergencyStop (millis s) s.emergencyStopState (s.lastDebounceTime 3)).changed
        = true →
      (db inp.emergencyStop (millis s) s.emergencyStopState (s.lastDebounceTime 3)).lastState
        = LOW →
      (loopEmergencyStop db inp s).systemStopped = true) ∧
    (s.systemOn = true → (loopWith db inp s).systemOn = false →
      (loopEmergencyStop db inp s).systemStopped = false ∧
      (db inp.keySwitch (millis (loopEmergencyStop db inp s))
        (loopEmergencyStop db inp s).keySwitchState
        ((loopEmergencyStop db inp s).lastDebounceTime 0)).changed = true ∧
      (db inp.keySwitch (millis (loopEmergencyStop db inp s))
        (loopEmergencyStop db inp s).keySwitchState
        ((loopEmergencyStop db inp s).lastDebounceTime 0)).lastState ≠ LOW) ∧
    ((loopEmergencyStop db inp s).systemStopped = false →
      (db inp.keySwitch (millis (loopEmergencyStop db inp s))
        (loopEmergencyStop db inp s).keySwitchState
        ((loopEmergencyStop db inp s).lastDebounceTime 0)).changed = true →
      (db inp.keySwitch (millis (loopEmergencyStop db inp s))
        (loopEmergencyStop db inp s).keySwitchState
        ((loopEmergencyStop db inp s).lastDebounceTime 0)).lastState ≠ LOW →
      (loopWith db inp s).systemOn = false ∧
      (loopWith db inp s).connectionEstablished = false) := by
  have hkey := loopEmergencyStop_key db inp s
  have hst := loopEmergencyStop_systemStopped db inp s
  have hrest : (loopEmergencyStop db inp s).systemStopped = false →
      (loopWith db inp s).linkView =
        (loopKeySwitch db inp (loopEmergencyStop db inp s)).linkView := by
    intro he
    have hw : loopWith db inp s =
        loopTail inp (loopLaunchButton db inp (loopReadSwitches inp
          (loopEnableSwitch db inp (loopKeySwitch db inp (loopEmergencyStop db inp s))))) := by
      unfold loopWith loopBeforeLaunch
      simp [he]
    rw [hw, loopTail_linkView, loopLaunchButton_linkView, loopReadSwitches_linkView,
      loopEnableSwitch_linkView]
  refine ⟨?_, ?_, ?_, ?_, ?_⟩
  · intro he
    have hw : loopWith db inp s = loopEmergencyStop db inp s := by
      unfold loopWith
      simp [he]
    rw [hw]
    exact ⟨he, hkey⟩
  · intro hs hno
    rw [hst, if_neg hno]
    exact hs
  · intro hs hc hl
    rw [hst, if_pos ⟨hc, hl⟩, hs]
    rfl
  · intro hon hoff
    have he : (loopEmergencyStop db inp s).systemStopped = false := by
      by_contra hne
      have hst1 : (loopEmergencyStop db inp s).systemStopped = true := by simpa using hne
      have hw : loopWith db inp s = loopEmergencyStop db inp s := by
        unfold loopWith
        simp [hst1]
      rw [hw, hkey.1, hon] at hoff
      exact Bool.noConfusion hoff
    have hl := hrest he
    simp only [State.linkView, Prod.mk.injEq] at hl
    refine ⟨he, ?_⟩
    by_contra hq
    have hq1 : ¬ ((db inp.keySwitch (millis (loopEmergencyStop db inp s))
          (loopEmergencyStop db inp s).keySwitchState
          ((loopEmergencyStop db inp s).lastDebounceTime 0)).changed = true ∧
        (db inp.keySwitch (millis (loopEmergencyStop db inp s))
          (loopEmergencyStop db inp s).keySwitchState
          ((loopEmergencyStop db inp s).lastDebounceTime 0)).lastState ≠ LOW) := hq
    have := loopKeySwitch_systemOn_of_quiet db inp (loopEmergencyStop db inp s) hq1
      (by rw [hkey.1]; exact hon)
    rw [hl.1, this] at hoff
    exact Bool.noConfusion hoff
  · intro he hk hopen
    have hl := hrest he
    rw [loopKeySwitch_open db inp (loopEmergencyStop db inp s) hk hopen] at hl
    simp only [State.linkView, Prod.mk.injEq] at hl
    exact ⟨hl.1, hl.2.1⟩

/-- Witness for C5 (amended): at the state `stopped` with the key switch read open; in the
iteration in which the stop is pressed, 2000 ms into the countdown of pad 0, with the key
switch read open at the same time; and at `countingPad1`, stop not active, where the open
edge is honoured. -/
theorem key_switch_not_read_while_stopped_witness :
    stopped.systemOn = true ∧
    (loopWith edgeDebounce keyOff stopped).systemOn = stopped.systemOn ∧
    (loopWith edgeDebounce keyOff stopped).keySwitchState = stopped.keySwitchState ∧
    (delay 2000 counting).systemStopped = false ∧
    (delay 2000 counting).systemOn = true ∧
    stopKeyOff.keySwitch = HIGH ∧
    (loopWith edgeDebounce stopKeyOff (delay 2000 counting)).systemStopped = true ∧
    (loopWith edgeDebounce stopKeyOff (delay 2000 counting)).systemOn =
      (delay 2000 counting).systemOn ∧
    (loopWith edgeDebounce keyOff countingPad1).systemOn = false :=
  have h := key_switch_not_read_while_stopped edgeDebounce keyOff stopped
  have h1 := h.1 (h.2.1 (by decide) (by decide))
  have g := key_switch_not_read_while_stopped edgeDebounce stopKeyOff (delay 2000 counting)
  have g1 := g.1 (g.2.2.1 (by decide) (by decide) (by decide))
  have k := key_switch_not_read_while_stopped edgeDebounce keyOff countingPad1
  ⟨by decide, h1.2.1, h1.2.2.2.1, by decide, by decide, by decide, g1.1, g1.2.1,
    (k.2.2.2.2 (by decide) (by decide) (by decide)).1⟩

/-! ## Debouncer (C6, C7) -/

/-- C6 (evaluation of the code at the claim's scenario): with accepted state `HIGH`, a
reading that bounces low/high/low within 10 ms and then stays `LOW` for 60 ms, none
of the ten `debounceSwitch` calls returns true and the accepted state is still `HIGH`
after the last call; the claim asks for exactly one true. -/
theorem debounce_stable_low_reports_nothing :
    debounceRun bounceThenLow HIGH 0 = (List.replicate 10 false, HIGH, 70) := by
  decide

/-- C7: for every accepted state `s`, every stored change time and every sequence of
`debounceSwitch` calls (whatever the readings and times, so in particular when every run
of readings that differ from `s` is shorter than 50 ms), every call returns false and the
accepted state is still `s` after the last call. -/
theorem debounceRun_short_bounces_silent (calls : List (Int × Nat)) (s : Int) (t0 : Nat) :
    (debounceRun calls s t0).1 = List.replicate calls.length false ∧
    (debounceRun calls s t0).2.1 = s := by
  induction calls generalizing t0 with
  | nil => exact ⟨rfl, rfl⟩
  | cons c rest ih =>
    obtain ⟨reading, t⟩ := c
    have hq := debounceSwitch_quiet reading t s t0
    simp only [debounceRun, List.length_cons, List.replicate_succ]
    rw [hq.1, hq.2]
    exact ⟨by rw [(ih _).1], (ih _).2⟩

/-! ## The engaged branch in terms of `timeRemaining` -/

/-- The engaged branch of `runLaunchSequence` in terms of `timeRemaining`. -/
theorem runLaunchSequence_engaged_branch (s : State) (hp : s.currentPad < NUM_LAUNCH_SYSTEMS)
    (he : s.launchSwitchStates s.currentPad = LOW) :
    runLaunchSequence s =
      if timeRemaining s > 0 then
        countdownTick (timeRemaining s) { s with mainCountdownStartTime := countdownStart s }
      else firePad { s with mainCountdownStartTime := countdownStart s } := by
  unfold runLaunchSequence timeRemaining countdownStart
  simp only [hp, he, if_true]
  by_cases h0 : s.mainCountdownStartTime = 0
  · simp only [h0, if_true]
    rfl
  · simp only [h0, if_false]

/-! ## One call of `runLaunchSequence` (C8, C9, C10) -/

/-- C8: for a state with `currentPad < 5`, the current pad engaged and the countdown
started (start time non-zero, not after `now`, less than `2^31` ms ago), one call of
`runLaunchSequence` sends a launch command iff `now - start >= 5000`.  When it does, it
sends exactly one, increments `currentPad` by one and resets the start time to 0; when
it does not, it sends nothing and leaves `currentPad` and the start time unchanged. -/
theorem runLaunchSequence_engaged_fires_iff_elapsed (s : State)
    (hp : s.currentPad < NUM_LAUNCH_SYSTEMS)
    (he : s.launchSwitchStates s.currentPad = LOW) (h0 : s.mainCountdownStartTime ≠ 0)
    (hle : s.mainCountdownStartTime ≤ millis s)
    (hd : millis s - s.mainCountdownStartTime < 2147483648) :
    (mainCountdownDuration ≤ millis s - s.mainCountdownStartTime →
        sends (newOut s (runLaunchSequence s)) = [(s.clock, .irSend IR_LAUNCH_MESSAGE 32 38)] ∧
        (runLaunchSequence s).currentPad = s.currentPad + 1 ∧
        (runLaunchSequence s).mainCountdownStartTime = 0) ∧
    (millis s - s.mainCountdownStartTime < mainCountdownDuration →
        sends (newOut s (runLaunchSequence s)) = [] ∧
        (runLaunchSequence s).currentPad = s.currentPad ∧
        (runLaunchSequence s).mainCountdownStartTime = s.mainCountdownStartTime) := by
  have heq := runLaunchSequence_engaged_eq s hp he h0 hle hd
  constructor
  · intro h
    rw [heq, if_neg (by omega)]
    exact ⟨sends_firePad s, rfl, rfl⟩
  · intro h
    rw [heq, if_pos h]
    exact ⟨sends_countdownTick _ s, countdownTick_currentPad _ s,
      countdownTick_mainCountdownStartTime _ s⟩

/-- Witness for C8: 5000 ms into the countdown of pad 0 the call fires, 1000 ms into it
the call sends nothing and stays on pad 0. -/
theorem runLaunchSequence_engaged_fires_iff_elapsed_witness :
    (atTick counting 5000 press).currentPad = 0 ∧
    (atTick counting 5000 press).mainCountdownStartTime = 1400 ∧
    millis (atTick counting 5000 press) = 6400 ∧
    sends (newOut (atTick counting 5000 press) (runLaunchSequence (atTick counting 5000 press))) =
      [(6400, .irSend IR_LAUNCH_MESSAGE 32 38)] ∧
    (runLaunchSequence (atTick counting 5000 press)).currentPad = 1 ∧
    millis (atTick counting 1000 press) = 2400 ∧
    sends (newOut (atTick counting 1000 press) (runLaunchSequence (atTick counting 1000 press))) =
      [] ∧
    (runLaunchSequence (atTick counting 1000 press)).currentPad = 0 :=
  have h := (runLaunchSequence_engaged_fires_iff_elapsed (atTick counting 5000 press)
    (by decide) (by decide) (by decide) (by decide) (by decide)).1 (by decide)
  have g := (runLaunchSequence_engaged_fires_iff_elapsed (atTick counting 1000 press)
    (by decide) (by decide) (by decide) (by decide) (by decide)).2 (by decide)
  ⟨by decide, by decide, by decide, h.1, h.2.1, by decide, g.1, g.2.1⟩

/-- C9 (counterexample): the message transmitted when pad 0 fires and the one transmitted
when pad 1 fires are the same, code `0x789ABCDE` with 32 bits at 38 kHz. -/
theorem launch_message_same_for_pad0_and_pad1 :
    (atTick counting 5000 press).currentPad = 0 ∧
    (atTick countingPad1 5000 press).currentPad = 1 ∧
    messages (newOut (atTick counting 5000 press)
        (runLaunchSequence (atTick counting 5000 press))) = [(0x789ABCDE, 32, 38)] ∧
    messages (newOut (atTick countingPad1 5000 press)
        (runLaunchSequence (atTick countingPad1 5000 press))) = [(0x789ABCDE, 32, 38)] := by
  decide

/-- C9 (amended): at the firing edge of any pad (current pad engaged and the remaining
time computed by the call not positive) `runLaunchSequence` transmits exactly one message,
and it is the fixed launch code `IR_LAUNCH_MESSAGE` with 32 bits at 38 kHz whatever
`currentPad` is: the message is the same for every pad and carries no pad tag. -/
theorem launch_message_is_fixed_code (s : State)
    (hp : s.currentPad < NUM_LAUNCH_SYSTEMS)
    (he : s.launchSwitchStates s.currentPad = LOW)
    (hfire : ¬ timeRemaining s > 0) :
    messages (newOut s (runLaunchSequence s)) = [(IR_LAUNCH_MESSAGE, 32, 38)] := by
  rw [runLaunchSequence_engaged_branch s hp he, if_neg hfire,
    newOut_of_append s _ _ (firePad_out { s with mainCountdownStartTime := countdownStart s })]
  simp [messages]

/-- Witness for C9 (amended) at the firing edges of pad 0 and of pad 1. -/
theorem launch_message_is_fixed_code_witness :
    (atTick counting 5000 press).currentPad = 0 ∧
    messages (newOut (atTick counting 5000 press)
        (runLaunchSequence (atTick counting 5000 press))) = [(IR_LAUNCH_MESSAGE, 32, 38)] ∧
    (atTick countingPad1 5000 press).currentPad = 1 ∧
    messages (newOut (atTick countingPad1 5000 press)
        (runLaunchSequence (atTick countingPad1 5000 press))) = [(IR_LAUNCH_MESSAGE, 32, 38)] :=
  ⟨by decide, launch_message_is_fixed_code (atTick counting 5000 press)
    (by decide) (by decide) (by decide),
   by decide, launch_message_is_fixed_code (atTick countingPad1 5000 press)
    (by decide) (by decide) (by decide)⟩

/-- C10: for a state with `currentPad = p < 5` and the switch of pad `p` not `LOW`, one
call of `runLaunchSequence` writes nothing to the output log (so it sends no message),
sets `padTimerFrozen[p]`, keeps `padSecondsElapsed[p]`, moves `currentPad` to `p + 1`
and resets `mainCountdownStartTime` to 0, whatever the clock and the start time are. -/
theorem runLaunchSequence_disengaged_skips (s : State)
    (hp : s.currentPad < NUM_LAUNCH_SYSTEMS)
    (hoff : s.launchSwitchStates s.currentPad ≠ LOW) :
    (runLaunchSequence s).out = s.out ∧
    sends (newOut s (runLaunchSequence s)) = [] ∧
    (runLaunchSequence s).padTimerFrozen s.currentPad = true ∧
    (runLaunchSequence s).padSecondsElapsed s.currentPad = s.padSecondsElapsed s.currentPad ∧
    (runLaunchSequence s).currentPad = s.currentPad + 1 ∧
    (runLaunchSequence s).mainCountdownStartTime = 0 := by
  have heq : runLaunchSequence s =
      { s with
        padTimerFrozen := setAt s.padTimerFrozen s.currentPad true
        currentPad := s.currentPad + 1
        mainCountdownStartTime := 0 } := by
    unfold runLaunchSequence
    rw [if_pos hp, if_neg hoff]
  rw [heq]
  refine ⟨rfl, ?_, ?_, rfl, rfl, rfl⟩
  · simp [newOut, sends]
  · simp [setAt]

/-- Witness for C10: the switch of pad 0 is opened 2000 ms into its countdown. -/
theorem runLaunchSequence_disengaged_skips_witness :
    (atTick counting 2000 pressPadOff).currentPad = 0 ∧
    (atTick counting 2000 pressPadOff).mainCountdownStartTime = 1400 ∧
    (runLaunchSequence (atTick counting 2000 pressPadOff)).padTimerFrozen 0 = true ∧
    (runLaunchSequence (atTick counting 2000 pressPadOff)).currentPad = 1 ∧
    (runLaunchSequence (atTick counting 2000 pressPadOff)).mainCountdownStartTime = 0 :=
  have h := runLaunchSequence_disengaged_skips (atTick counting 2000 pressPadOff)
    (by decide) (by decide)
  ⟨by decide, by decide, h.2.2.1, h.2.2.2.2.1, h.2.2.2.2.2⟩

/-! ## Progress of the sequence (C11, C12) -/

/-- C11: for every state with `currentPad <= 5`, one call of `runLaunchSequence` leaves
`currentPad` unchanged or increases it by one, and keeps it `<= 5`.  If `currentPad = 5`
on entry the call sets `launchSequenceRunning` to false, transmits nothing and leaves
`currentPad` alone; if `currentPad < 5` on entry it leaves `launchSequenceRunning` as it
was.  So a running sequence stops in a call iff `currentPad = 5` on entry. -/
theorem runLaunchSequence_currentPad_step (s : State) (hp : s.currentPad ≤ NUM_LAUNCH_SYSTEMS) :
    ((runLaunchSequence s).currentPad = s.currentPad ∨
      (runLaunchSequence s).currentPad = s.currentPad + 1) ∧
    (runLaunchSequence s).currentPad ≤ NUM_LAUNCH_SYSTEMS ∧
    (s.currentPad = NUM_LAUNCH_SYSTEMS →
      (runLaunchSequence s).launchSequenceRunning = false ∧
      sends (newOut s (runLaunchSequence s)) = [] ∧
      (runLaunchSequence s).currentPad = s.currentPad) ∧
    (s.currentPad < NUM_LAUNCH_SYSTEMS →
      (runLaunchSequence s).launchSequenceRunning = s.launchSequenceRunning) ∧
    (s.launchSequenceRunning = true →
      ((runLaunchSequence s).launchSequenceRunning = false ↔
        s.currentPad = NUM_LAUNCH_SYSTEMS)) := by
  unfold NUM_LAUNCH_SYSTEMS at *
  by_cases h5 : s.currentPad < 5
  · have hcur : (runLaunchSequence s).currentPad = s.currentPad ∨
        (runLaunchSequence s).currentPad = s.currentPad + 1 := by
      unfold runLaunchSequence NUM_LAUNCH_SYSTEMS
      simp only [h5, if_true]
      split_ifs <;> simp [countdownTick_currentPad, firePad, emit, delay]
    have hrun : (runLaunchSequence s).launchSequenceRunning = s.launchSequenceRunning := by
      unfold runLaunchSequence NUM_LAUNCH_SYSTEMS
      simp only [h5, if_true]
      split_ifs <;> simp [countdownTick_running, firePad, emit, delay]
    refine ⟨hcur, ?_, fun h => absurd h (by omega), fun _ => hrun, fun hr => ?_⟩
    · rcases hcur with h | h <;> omega
    · rw [hrun, hr]
      constructor
      · intro h; exact absurd h (by simp)
      · intro h; omega
  · have h5' : s.currentPad = 5 := by omega
    have heq : runLaunchSequence s = clearDisplays { s with launchSequenceRunning := false } := by
      unfold runLaunchSequence NUM_LAUNCH_SYSTEMS
      rw [if_neg h5]
    rw [heq, clearDisplays_eq]
    refine ⟨Or.inl rfl, hp, fun _ => ⟨rfl, ?_, rfl⟩, fun h => absurd h h5,
      fun _ => ⟨fun _ => h5', fun _ => rfl⟩⟩
    rw [newOut_of_append s _ _ rfl]
    simp [sends, Effect.isSend]

/-- Witness for C11: in the scenario, after the last pad, the call finds `currentPad = 5`
and stops the sequence. -/
theorem runLaunchSequence_currentPad_step_witness :
    scenarioDone.launchSequenceRunning = true ∧
    scenarioDone.currentPad = 5 ∧
    (runLaunchSequence scenarioDone).launchSequenceRunning = false ∧
    (runLaunchSequence scenarioDone).currentPad = scenarioDone.currentPad :=
  have h := (runLaunchSequence_currentPad_step scenarioDone (by decide)).2.2.1 (by decide)
  ⟨by decide, by decide, h.1, h.2.2⟩

theorem runTicks_stopped (d n : Nat) (s : State) (h : s.launchSequenceRunning = false) :
    runTicks d n s = (s, []) := by
  cases n with
  | zero => rfl
  | succ n => simp [runTicks, h]

theorem runTicks_succ (d n : Nat) (s : State) (h : s.launchSequenceRunning = true) :
    runTicks d (n + 1) s =
      ((runTicks d n (delay d (runLaunchSequence s))).1,
        firings s ++ (runTicks d n (delay d (runLaunchSequence s))).2) := by
  simp [runTicks, h]

theorem timeRemaining_pos_iff (x : Nat) (hx : x ≤ 5000 + 2147483648) :
    toLong (usub mainCountdownDuration x) > 0 ↔ x < 5000 := by
  unfold toLong usub mainCountdownDuration U32
  split <;> omega

theorem countdownTick_clock (tr : Int) (s : State) : (countdownTick tr s).clock = s.clock := by
  by_cases h1 : s.padTimerStartTime s.currentPad = 0 <;>
    by_cases h2 : s.padTimerFrozen s.currentPad = true <;>
    simp [countdownTick, emit, h1, h2, setAt]

theorem runLaunchSequence_launchSwitchStates (s : State) :
    (runLaunchSequence s).launchSwitchStates = s.launchSwitchStates := by
  have h := congrArg State.launchSwitchStates (runLaunchSequence_sequenceErased s)
  simpa only [State.sequenceErased] using h

theorem firings_of_sends_nil (s : State) (h : sends (newOut s (runLaunchSequence s)) = []) :
    firings s = [] := by
  simp [firings, h]

/-- A tick on an engaged pad before the countdown has expired. -/
theorem tick_countdown (s : State) (hp : s.currentPad < NUM_LAUNCH_SYSTEMS)
    (he : s.launchSwitchStates s.currentPad = LOW) (h : timeRemaining s > 0) :
    (runLaunchSequence s).launchSequenceRunning = s.launchSequenceRunning ∧
    (runLaunchSequence s).currentPad = s.currentPad ∧
    (runLaunchSequence s).mainCountdownStartTime = countdownStart s ∧
    (runLaunchSequence s).clock = s.clock ∧
    firings s = [] := by
  have hs : sends (newOut s (runLaunchSequence s)) = [] := by
    rw [runLaunchSequence_engaged_branch s hp he, if_pos h]
    exact sends_countdownTick _ { s with mainCountdownStartTime := countdownStart s }
  refine ⟨?_, ?_, ?_, ?_, firings_of_sends_nil s hs⟩
  all_goals rw [runLaunchSequence_engaged_branch s hp he, if_pos h]
  · rw [countdownTick_running]
  · rw [countdownTick_currentPad]
  · rw [countdownTick_mainCountdownStartTime]
  · rw [countdownTick_clock]

/-- A tick on an engaged pad whose countdown has expired. -/
theorem tick_fire (s : State) (hp : s.currentPad < NUM_LAUNCH_SYSTEMS)
    (he : s.launchSwitchStates s.currentPad = LOW) (h : ¬ timeRemaining s > 0) :
    (runLaunchSequence s).launchSequenceRunning = s.launchSequenceRunning ∧
    (runLaunchSequence s).currentPad = s.currentPad + 1 ∧
    (runLaunchSequence s).mainCountdownStartTime = 0 ∧
    (runLaunchSequence s).clock = s.clock + 100 ∧
    firings s = [(s.currentPad, s.clock, IR_LAUNCH_MESSAGE)] := by
  have hs : sends (newOut s (runLaunchSequence s)) =
      [(s.clock, .irSend IR_LAUNCH_MESSAGE 32 38)] := by
    rw [runLaunchSequence_engaged_branch s hp he, if_neg h]
    exact sends_firePad { s with mainCountdownStartTime := countdownStart s }
  refine ⟨?_, ?_, ?_, ?_, by simp [firings, hs]⟩
  all_goals rw [runLaunchSequence_engaged_branch s hp he, if_neg h]
  all_goals simp [firePad, emit, delay]

/-- A tick on a disengaged pad. -/
theorem tick_skip (s : State) (hp : s.currentPad < NUM_LAUNCH_SYSTEMS)
    (hoff : s.launchSwitchStates s.currentPad ≠ LOW) :
    (runLaunchSequence s).launchSequenceRunning = s.launchSequenceRunning ∧
    (runLaunchSequence s).currentPad = s.currentPad + 1 ∧
    (runLaunchSequence s).mainCountdownStartTime = 0 ∧
    (runLaunchSequence s).clock = s.clock ∧
    (runLaunchSequence s).out = s.out ∧
    firings s = [] := by
  have heq : runLaunchSequence s =
      { s with
        padTimerFrozen := setAt s.padTimerFrozen s.currentPad true
        currentPad := s.currentPad + 1
        mainCountdownStartTime := 0 } := by
    unfold runLaunchSequence
    rw [if_pos hp, if_neg hoff]
  refine ⟨?_, ?_, ?_, ?_, ?_, ?_⟩
  · rw [heq]
  · rw [heq]
  · rw [heq]
  · rw [heq]
  · rw [heq]
  · apply firings_of_sends_nil
    rw [heq]
    simp [newOut, sends]

/-- The tick that finds every pad done. -/
theorem tick_complete (s : State) (hp : ¬ s.currentPad < NUM_LAUNCH_SYSTEMS) :
    (runLaunchSequence s).launchSequenceRunning = false ∧
    (runLaunchSequence s).currentPad = s.currentPad ∧
    firings s = [] := by
  have heq : runLaunchSequence s = clearDisplays { s with launchSequenceRunning := false } := by
    unfold runLaunchSequence
    rw [if_neg hp]
  refine ⟨?_, ?_, ?_⟩
  · rw [heq, clearDisplays_eq]
  · rw [heq, clearDisplays_eq]
  · apply firings_of_sends_nil
    rw [heq, clearDisplays_eq, newOut_of_append s _ _ rfl]
    simp [sends, Effect.isSend]

theorem millis_delay_of_clock (d : Nat) (s t : State) (h : t.clock = s.clock) :
    millis (delay d t) = millis (delay d s) := by
  unfold millis delay
  simp only [h]

theorem timeRemaining_of_started (s : State) (h0 : s.mainCountdownStartTime ≠ 0) :
    timeRemaining s =
      toLong (usub mainCountdownDuration (usub (millis s) s.mainCountdownStartTime)) := by
  unfold timeRemaining countdownStart
  rw [if_neg h0]

theorem usub_millis_delay_mod (s : State) (start d : Nat) :
    usub (millis (delay d s)) start = (usub (millis s) start + d % U32) % U32 := by
  unfold usub millis delay U32
  simp only
  omega

theorem timeRemaining_pos_iff_full (x : Nat) (hx : x < U32) :
    toLong (usub mainCountdownDuration x) > 0 ↔ (x < 5000 ∨ 5000 + 2147483648 < x) := by
  unfold toLong usub mainCountdownDuration U32 at *
  split <;> omega

theorem usub_lt (a b : Nat) : usub a b < U32 := by
  unfold usub U32
  omega

/-- The elapsed time read from `millis()` is at most the time that has really passed. -/
theorem usub_millis_le (s : State) (c0 : Nat) (h : c0 ≤ s.clock) :
    usub (millis s) (c0 % U32) ≤ s.clock - c0 := by
  unfold usub millis U32
  omega

/-- Countdown phase of an engaged pad.  The countdown started at clock value `c0`; `Inv`
is an invariant of the elapsed time read from `millis()` and `μ` a measure that decreases
on every tick that does not fire.  Then ticks at intervals of `d` ms reach the firing
edge, no earlier than 5000 ms after the start. -/
theorem countdown_phase (d : Nat) (Inv : Nat → Prop) (μ : Nat → Nat)
    (hstep : ∀ x, x < U32 → Inv x → (x < 5000 ∨ 5000 + 2147483648 < x) →
      Inv ((x + d % U32) % U32) ∧ μ ((x + d % U32) % U32) < μ x)
    (c0 : Nat) :
    ∀ (k : Nat) (s : State), s.launchSequenceRunning = true →
      s.currentPad < NUM_LAUNCH_SYSTEMS → s.launchSwitchStates s.currentPad = LOW →
      s.mainCountdownStartTime ≠ 0 → s.mainCountdownStartTime = c0 % U32 → c0 ≤ s.clock →
      Inv (usub (millis s) s.mainCountdownStartTime) →
      μ (usub (millis s) s.mainCountdownStartTime) ≤ k →
      ∃ n t, (runTicks d n s).2 = [(s.currentPad, t, IR_LAUNCH_MESSAGE)] ∧
        c0 + 5000 ≤ t ∧
        t ≤ (runTicks d n s).1.clock ∧
        (runTicks d n s).1.launchSequenceRunning = true ∧
        (runTicks d n s).1.currentPad = s.currentPad + 1 ∧
        (runTicks d n s).1.mainCountdownStartTime = 0 ∧
        (runTicks d n s).1.launchSwitchStates = s.launchSwitchStates := by
  have hfire : ∀ s : State, s.launchSequenceRunning = true →
      s.currentPad < NUM_LAUNCH_SYSTEMS → s.launchSwitchStates s.currentPad = LOW →
      s.mainCountdownStartTime ≠ 0 → s.mainCountdownStartTime = c0 % U32 → c0 ≤ s.clock →
      ¬ (usub (millis s) s.mainCountdownStartTime < 5000 ∨
        5000 + 2147483648 < usub (millis s) s.mainCountdownStartTime) →
      ∃ n t, (runTicks d n s).2 = [(s.currentPad, t, IR_LAUNCH_MESSAGE)] ∧
        c0 + 5000 ≤ t ∧
        t ≤ (runTicks d n s).1.clock ∧
        (runTicks d n s).1.launchSequenceRunning = true ∧
        (runTicks d n s).1.currentPad = s.currentPad + 1 ∧
        (runTicks d n s).1.mainCountdownStartTime = 0 ∧
        (runTicks d n s).1.launchSwitchStates = s.launchSwitchStates := by
    intro s hr hp he h0 hc0 hle hw
    have htr : ¬ timeRemaining s > 0 := by
      rw [timeRemaining_of_started s h0, timeRemaining_pos_iff_full _ (usub_lt _ _)]
      exact hw
    have tf := tick_fire s hp he htr
    have hreal := usub_millis_le s c0 hle
    rw [← hc0] at hreal
    refine ⟨1, s.clock, ?_, by omega, ?_, ?_, ?_, ?_, ?_⟩
    · rw [runTicks_succ d 0 s hr]
      simp [runTicks, tf.2.2.2.2]
    all_goals rw [runTicks_succ d 0 s hr]
    · show s.clock ≤ (runLaunchSequence s).clock + d
      rw [tf.2.2.2.1]; omega
    · show (runLaunchSequence s).launchSequenceRunning = true
      rw [tf.1]; exact hr
    · exact tf.2.1
    · exact tf.2.2.1
    · exact runLaunchSequence_launchSwitchStates s
  have hcount : ∀ (k : Nat) (s : State),
      (∀ s' : State, s'.launchSequenceRunning = true →
        s'.currentPad < NUM_LAUNCH_SYSTEMS → s'.launchSwitchStates s'.currentPad = LOW →
        s'.mainCountdownStartTime ≠ 0 → s'.mainCountdownStartTime = c0 % U32 →
        c0 ≤ s'.clock →
        Inv (usub (millis s') s'.mainCountdownStartTime) →
        μ (usub (millis s') s'.mainCountdownStartTime) ≤ k →
        ∃ n t, (runTicks d n s').2 = [(s'.currentPad, t, IR_LAUNCH_MESSAGE)] ∧
          c0 + 5000 ≤ t ∧
          t ≤ (runTicks d n s').1.clock ∧
          (runTicks d n s').1.launchSequenceRunning = true ∧
          (runTicks d n s').1.currentPad = s'.currentPad + 1 ∧
          (runTicks d n s').1.mainCountdownStartTime = 0 ∧
          (runTicks d n s').1.launchSwitchStates = s'.launchSwitchStates) →
      s.launchSequenceRunning = true →
      s.currentPad < NUM_LAUNCH_SYSTEMS → s.launchSwitchStates s.currentPad = LOW →
      s.mainCountdownStartTime ≠ 0 → s.mainCountdownStartTime = c0 % U32 → c0 ≤ s.clock →
      Inv (usub (millis s) s.mainCountdownStartTime) →
      μ (usub (millis s) s.mainCountdownStartTime) ≤ k + 1 →
      (usub (millis s) s.mainCountdownStartTime < 5000 ∨
        5000 + 2147483648 < usub (millis s) s.mainCountdownStartTime) →
      ∃ n t, (runTicks d n s).2 = [(s.currentPad, t, IR_LAUNCH_MESSAGE)] ∧
        c0 + 5000 ≤ t ∧
        t ≤ (runTicks d n s).1.clock ∧
        (runTicks d n s).1.launchSequenceRunning = true ∧
        (runTicks d n s).1.currentPad = s.currentPad + 1 ∧
        (runTicks d n s).1.mainCountdownStartTime = 0 ∧
        (runTicks d n s).1.launchSwitchStates = s.launchSwitchStates := by
    intro k s ih hr hp he h0 hc0 hle hinv hk hw
    have htr : timeRemaining s > 0 := by
      rw [timeRemaining_of_started s h0, timeRemaining_pos_iff_full _ (usub_lt _ _)]
      exact hw
    have tc := tick_countdown s hp he htr
    have hstart : (runLaunchSequence s).mainCountdownStartTime = s.mainCountdownStartTime := by
      rw [tc.2.2.1]; unfold countdownStart; rw [if_neg h0]
    have hx1 : usub (millis (delay d (runLaunchSequence s))) s.mainCountdownStartTime =
        (usub (millis s) s.mainCountdownStartTime + d % U32) % U32 := by
      rw [millis_delay_of_clock d s (runLaunchSequence s) tc.2.2.2.1]
      exact usub_millis_delay_mod s _ d
    have hst := hstep _ (usub_lt _ _) hinv hw
    have hsw := runLaunchSequence_launchSwitchStates s
    have hclk : (delay d (runLaunchSequence s)).clock = s.clock + d := by
      show (runLaunchSequence s).clock + d = s.clock + d
      rw [tc.2.2.2.1]
    obtain ⟨n, t, h1, h2, h3, h4, h5, h6, h7⟩ := ih (delay d (runLaunchSequence s))
      (by show (runLaunchSequence s).launchSequenceRunning = true; rw [tc.1]; exact hr)
      (by show (runLaunchSequence s).currentPad < NUM_LAUNCH_SYSTEMS; rw [tc.2.1]; exact hp)
      (by
        show (runLaunchSequence s).launchSwitchStates (runLaunchSequence s).currentPad = LOW
        rw [hsw, tc.2.1]; exact he)
      (by show (runLaunchSequence s).mainCountdownStartTime ≠ 0; rw [hstart]; exact h0)
      (by show (runLaunchSequence s).mainCountdownStartTime = c0 % U32; rw [hstart]; exact hc0)
      (by rw [hclk]; omega)
      (by
        show Inv (usub (millis (delay d (runLaunchSequence s)))
          (runLaunchSequence s).mainCountdownStartTime)
        rw [hstart, hx1]; exact hst.1)
      (by
        show μ (usub (millis (delay d (runLaunchSequence s)))
          (runLaunchSequence s).mainCountdownStartTime) ≤ k
        rw [hstart, hx1]; omega)
    have hcp : (delay d (runLaunchSequence s)).currentPad = s.currentPad := tc.2.1
    rw [hcp] at h1 h5
    refine ⟨n + 1, t, ?_, h2, ?_, ?_, ?_, ?_, ?_⟩
    · rw [runTicks_succ d n s hr, tc.2.2.2.2, h1]; rfl
    all_goals rw [runTicks_succ d n s hr]
    · exact h3
    · exact h4
    · exact h5
    · exact h6
    · rw [h7]; exact hsw
  intro k
  induction k with
  | zero =>
    intro s hr hp he h0 hc0 hle hinv hk
    by_cases hw : usub (millis s) s.mainCountdownStartTime < 5000 ∨
        5000 + 2147483648 < usub (millis s) s.mainCountdownStartTime
    · have := (hstep _ (usub_lt _ _) hinv hw).2
      omega
    · exact hfire s hr hp he h0 hc0 hle hw
  | succ k ih =>
    intro s hr hp he h0 hc0 hle hinv hk
    by_cases hw : usub (millis s) s.mainCountdownStartTime < 5000 ∨
        5000 + 2147483648 < usub (millis s) s.mainCountdownStartTime
    · exact hcount k s ih hr hp he h0 hc0 hle hinv hk hw
    · exact hfire s hr hp he h0 hc0 hle hw

/-- Countdown phase for any step that `millis()` can see: started at clock value `c0` and
first examined one step later, the countdown reaches the firing edge. -/
theorem countdown_reaches_firing (d : Nat) (hd : d % U32 ≠ 0) (c0 : Nat) (s : State)
    (hr : s.launchSequenceRunning = true) (hp : s.currentPad < NUM_LAUNCH_SYSTEMS)
    (he : s.launchSwitchStates s.currentPad = LOW)
    (h0 : s.mainCountdownStartTime ≠ 0) (hc0 : s.mainCountdownStartTime = c0 % U32)
    (hle : c0 ≤ s.clock)
    (hx : usub (millis s) s.mainCountdownStartTime = d % U32) :
    ∃ n t, (runTicks d n s).2 = [(s.currentPad, t, IR_LAUNCH_MESSAGE)] ∧
      c0 + 5000 ≤ t ∧
      t ≤ (runTicks d n s).1.clock ∧
      (runTicks d n s).1.launchSequenceRunning = true ∧
      (runTicks d n s).1.currentPad = s.currentPad + 1 ∧
      (runTicks d n s).1.mainCountdownStartTime = 0 ∧
      (runTicks d n s).1.launchSwitchStates = s.launchSwitchStates := by
  have hlt : d % U32 < U32 := Nat.mod_lt _ (by unfold U32; omega)
  by_cases hD : d % U32 ≤ 2147483648
  · -- the elapsed time grows from below 5000 into the firing window
    exact countdown_phase d (fun x => x < 5000 + d % U32) (fun x => 5000 - x)
      (by
        intro x _ hinv hw
        have hinv1 : x < 5000 + d % U32 := hinv
        show (x + d % U32) % U32 < 5000 + d % U32 ∧ 5000 - (x + d % U32) % U32 < 5000 - x
        unfold U32 at *
        constructor <;> omega)
      c0 (5000 - d % U32) s hr hp he h0 hc0 hle (by rw [hx]; omega) (by rw [hx])
  · -- the elapsed time wraps and comes down into the firing window from above
    exact countdown_phase d (fun x => 5000 ≤ x) (fun x => x)
      (by
        intro x hx32 hinv hw
        have hinv1 : 5000 ≤ x := hinv
        show 5000 ≤ (x + d % U32) % U32 ∧ (x + d % U32) % U32 < x
        unfold U32 at *
        constructor <;> omega)
      c0 (d % U32) s hr hp he h0 hc0 hle (by rw [hx]; omega) (by rw [hx])

theorem runTicks_add (d : Nat) (n m : Nat) :
    ∀ s : State, runTicks d (n + m) s =
      ((runTicks d m (runTicks d n s).1).1,
        (runTicks d n s).2 ++ (runTicks d m (runTicks d n s).1).2) := by
  induction n with
  | zero => intro s; simp [runTicks]
  | succ n ih =>
    intro s
    by_cases hr : s.launchSequenceRunning = true
    · have e : n + 1 + m = n + m + 1 := by omega
      rw [e, runTicks_succ d (n + m) s hr, runTicks_succ d n s hr, ih]
      simp
    · have hr' : s.launchSequenceRunning = false := by simpa using hr
      rw [runTicks_stopped d _ s hr', runTicks_stopped d _ s hr', runTicks_stopped d _ s hr']
      rfl

theorem timeRemaining_of_unset (s : State) (h0 : s.mainCountdownStartTime = 0) :
    timeRemaining s > 0 := by
  unfold timeRemaining countdownStart
  rw [if_pos h0, usub_self_eq, timeRemaining_pos_iff 0 (by omega)]
  omega

/-- An engaged pad reached with no countdown under way fires once, at least 5000 ms
later, and the sequence moves to the next pad. -/
theorem engaged_pad_fires (d : Nat) (hd : d % U32 ≠ 0) (s : State)
    (hr : s.launchSequenceRunning = true) (hp : s.currentPad < NUM_LAUNCH_SYSTEMS)
    (he : s.launchSwitchStates s.currentPad = LOW) (h0 : s.mainCountdownStartTime = 0) :
    ∃ n t, (runTicks d n s).2 = [(s.currentPad, t, IR_LAUNCH_MESSAGE)] ∧
      s.clock + 5000 ≤ t ∧
      t ≤ (runTicks d n s).1.clock ∧
      (runTicks d n s).1.launchSequenceRunning = true ∧
      (runTicks d n s).1.currentPad = s.currentPad + 1 ∧
      (runTicks d n s).1.mainCountdownStartTime = 0 ∧
      (runTicks d n s).1.launchSwitchStates = s.launchSwitchStates := by
  -- the case in which `millis()` is non-zero at the first tick
  have hmain : ∀ s : State, s.launchSequenceRunning = true →
      s.currentPad < NUM_LAUNCH_SYSTEMS → s.launchSwitchStates s.currentPad = LOW →
      s.mainCountdownStartTime = 0 → millis s ≠ 0 →
      ∃ n t, (runTicks d n s).2 = [(s.currentPad, t, IR_LAUNCH_MESSAGE)] ∧
        s.clock + 5000 ≤ t ∧
        t ≤ (runTicks d n s).1.clock ∧
        (runTicks d n s).1.launchSequenceRunning = true ∧
        (runTicks d n s).1.currentPad = s.currentPad + 1 ∧
        (runTicks d n s).1.mainCountdownStartTime = 0 ∧
        (runTicks d n s).1.launchSwitchStates = s.launchSwitchStates := by
    intro s hr hp he h0 hm
    have tc := tick_countdown s hp he (timeRemaining_of_unset s h0)
    have hstart : (runLaunchSequence s).mainCountdownStartTime = millis s := by
      rw [tc.2.2.1]; unfold countdownStart; rw [if_pos h0]
    have hx1 : usub (millis (delay d (runLaunchSequence s))) (millis s) = d % U32 := by
      rw [millis_delay_of_clock d s (runLaunchSequence s) tc.2.2.2.1,
        usub_millis_delay_mod s _ d, usub_self_eq, Nat.zero_add]
      exact Nat.mod_eq_of_lt (Nat.mod_lt _ (by unfold U32; omega))
    have hsw := runLaunchSequence_launchSwitchStates s
    have hclk : (delay d (runLaunchSequence s)).clock = s.clock + d := by
      show (runLaunchSequence s).clock + d = s.clock + d
      rw [tc.2.2.2.1]
    obtain ⟨n, t, h1, h2, h3, h4, h5, h6, h7⟩ :=
      countdown_reaches_firing d hd s.clock (delay d (runLaunchSequence s))
        (by show (runLaunchSequence s).launchSequenceRunning = true; rw [tc.1]; exact hr)
        (by show (runLaunchSequence s).currentPad < NUM_LAUNCH_SYSTEMS; rw [tc.2.1]; exact hp)
        (by
          show (runLaunchSequence s).launchSwitchStates (runLaunchSequence s).currentPad = LOW
          rw [hsw, tc.2.1]; exact he)
        (by show (runLaunchSequence s).mainCountdownStartTime ≠ 0; rw [hstart]; exact hm)
        (by show (runLaunchSequence s).mainCountdownStartTime = s.clock % U32; rw [hstart]; rfl)
        (by rw [hclk]; omega)
        (by
          show usub (millis (delay d (runLaunchSequence s)))
            (runLaunchSequence s).mainCountdownStartTime = d % U32
          rw [hstart, hx1])
    have hcp : (delay d (runLaunchSequence s)).currentPad = s.currentPad := tc.2.1
    rw [hcp] at h1 h5
    refine ⟨n + 1, t, ?_, h2, ?_, ?_, ?_, ?_, ?_⟩
    · rw [runTicks_succ d n s hr, tc.2.2.2.2, h1]; rfl
    all_goals rw [runTicks_succ d n s hr]
    · exact h3
    · exact h4
    · exact h5
    · exact h6
    · rw [h7]; exact hsw
  by_cases hm : millis s = 0
  · -- `millis()` reads 0: the start time stays unset for one more tick
    have tc := tick_countdown s hp he (timeRemaining_of_unset s h0)
    have hstart : (runLaunchSequence s).mainCountdownStartTime = 0 := by
      rw [tc.2.2.1]; unfold countdownStart; rw [if_pos h0]; exact hm
    have hm1 : millis (delay d (runLaunchSequence s)) ≠ 0 := by
      rw [millis_delay_of_clock d s (runLaunchSequence s) tc.2.2.2.1]
      unfold millis delay U32 at *
      simp only
      omega
    have hsw := runLaunchSequence_launchSwitchStates s
    obtain ⟨n, t, h1, h2, h3, h4, h5, h6, h7⟩ := hmain (delay d (runLaunchSequence s))
      (by show (runLaunchSequence s).launchSequenceRunning = true; rw [tc.1]; exact hr)
      (by show (runLaunchSequence s).currentPad < NUM_LAUNCH_SYSTEMS; rw [tc.2.1]; exact hp)
      (by
        show (runLaunchSequence s).launchSwitchStates (runLaunchSequence s).currentPad = LOW
        rw [hsw, tc.2.1]; exact he)
      hstart hm1
    have hcp : (delay d (runLaunchSequence s)).currentPad = s.currentPad := tc.2.1
    have hclk : (delay d (runLaunchSequence s)).clock = s.clock + d := by
      show (runLaunchSequence s).clock + d = s.clock + d
      rw [tc.2.2.2.1]
    rw [hcp] at h1 h5
    rw [hclk] at h2
    refine ⟨n + 1, t, ?_, by omega, ?_, ?_, ?_, ?_, ?_⟩
    · rw [runTicks_succ d n s hr, tc.2.2.2.2, h1]; rfl
    all_goals rw [runTicks_succ d n s hr]
    · exact h3
    · exact h4
    · exact h5
    · exact h6
    · rw [h7]; exact hsw
  · exact hmain s hr hp he h0 hm

/-- From a pad boundary the sequence runs to completion, firing the engaged pads that
remain, in order. -/
theorem sequence_completes_from (d : Nat) (hd : d % U32 ≠ 0) :
    ∀ (k : Nat) (s : State), s.launchSequenceRunning = true → s.mainCountdownStartTime = 0 →
      s.currentPad + k = NUM_LAUNCH_SYSTEMS →
      ∃ n, (runTicks d n s).1.launchSequenceRunning = false ∧
        (runTicks d n s).1.currentPad = NUM_LAUNCH_SYSTEMS ∧
        (runTicks d n s).2.map (fun f => (f.1, f.2.2)) =
          ((List.range' s.currentPad k).filter
            (fun p => decide (s.launchSwitchStates p = LOW))).map
            (fun p => (p, IR_LAUNCH_MESSAGE)) ∧
        (runTicks d n s).2.Pairwise (fun a b => a.2.1 + 5000 ≤ b.2.1) ∧
        (∀ f ∈ (runTicks d n s).2, s.clock + 5000 ≤ f.2.1) := by
  intro k
  induction k with
  | zero =>
    intro s hr _ hk
    have tc := tick_complete s (by omega)
    refine ⟨1, ?_, ?_, ?_, ?_, ?_⟩
    all_goals rw [runTicks_succ d 0 s hr]
    · exact tc.1
    · show (runLaunchSequence s).currentPad = NUM_LAUNCH_SYSTEMS
      rw [tc.2.1]; omega
    · simp [runTicks, tc.2.2]
    · simp [runTicks, tc.2.2]
    · simp [runTicks, tc.2.2]
  | succ k ih =>
    intro s hr h0 hk
    have hp : s.currentPad < NUM_LAUNCH_SYSTEMS := by omega
    by_cases he : s.launchSwitchStates s.currentPad = LOW
    · obtain ⟨n1, t, h1, h2, h3, h4, h5, h6, h7⟩ := engaged_pad_fires d hd s hr hp he h0
      obtain ⟨n2, g1, g2, g3, g4, g5⟩ := ih (runTicks d n1 s).1 h4 h6 (by rw [h5]; omega)
      refine ⟨n1 + n2, ?_, ?_, ?_, ?_, ?_⟩
      all_goals rw [runTicks_add]
      · exact g1
      · exact g2
      · simp only [List.map_append, h1, g3, h5, h7, List.range'_succ, List.map_cons, List.map_nil,
          List.singleton_append]
        rw [List.filter_cons_of_pos (by simpa using he)]
        rfl
      · simp only [h1, List.singleton_append, List.pairwise_cons]
        refine ⟨fun b hb => ?_, g4⟩
        have := g5 b hb
        show t + 5000 ≤ b.2.1
        omega
      · intro f hf
        simp only [h1, List.singleton_append, List.mem_cons] at hf
        rcases hf with hf | hf
        · rw [hf]; exact h2
        · have := g5 f hf
          omega
    · have ts := tick_skip s hp he
      have hone : runTicks d 1 s = (delay d (runLaunchSequence s), []) := by
        rw [runTicks_succ d 0 s hr, ts.2.2.2.2.2]; rfl
      obtain ⟨n2, g1, g2, g3, g4, g5⟩ := ih (delay d (runLaunchSequence s))
        (by show (runLaunchSequence s).launchSequenceRunning = true; rw [ts.1]; exact hr)
        ts.2.2.1
        (by show (runLaunchSequence s).currentPad + k = NUM_LAUNCH_SYSTEMS; rw [ts.2.1]; omega)
      have hcp : (delay d (runLaunchSequence s)).currentPad = s.currentPad + 1 := ts.2.1
      have hsw : (delay d (runLaunchSequence s)).launchSwitchStates = s.launchSwitchStates :=
        runLaunchSequence_launchSwitchStates s
      have hclk : (delay d (runLaunchSequence s)).clock = s.clock + d := by
        show (runLaunchSequence s).clock + d = s.clock + d
        rw [ts.2.2.2.1]
      rw [hcp, hsw] at g3
      refine ⟨1 + n2, ?_, ?_, ?_, ?_, ?_⟩
      all_goals rw [runTicks_add, hone]
      · exact g1
      · exact g2
      · simp only [List.nil_append, g3, List.range'_succ]
        rw [List.filter_cons_of_neg (by simpa using he)]
      · simpa using g4
      · intro f hf
        simp only [List.nil_append] at hf
        have := g5 f hf
        rw [hclk] at this
        omega

/-- With a step of `2^32` ms `millis()` reads the same value at every tick; the countdown
of pad 0 never advances. -/
theorem frozen_clock_never_fires :
    ∀ (n : Nat) (s : State), s.launchSequenceRunning = true → s.currentPad = 0 →
      s.launchSwitchStates 0 = LOW → millis s = 1400 →
      (s.mainCountdownStartTime = 0 ∨ s.mainCountdownStartTime = 1400) →
      (runTicks 4294967296 n s).1.launchSequenceRunning = true ∧
      (runTicks 4294967296 n s).2 = [] := by
  intro n
  induction n with
  | zero => intro s hr _ _ _ _; exact ⟨hr, rfl⟩
  | succ n ih =>
    intro s hr hcp he hm hst
    have hp : s.currentPad < NUM_LAUNCH_SYSTEMS := by rw [hcp]; decide
    have he' : s.launchSwitchStates s.currentPad = LOW := by rw [hcp]; exact he
    have hcs : countdownStart s = 1400 := by
      unfold countdownStart
      rcases hst with h | h
      · rw [if_pos h, hm]
      · rw [if_neg (by rw [h]; decide), h]
    have htr : timeRemaining s > 0 := by
      unfold timeRemaining
      rw [hcs, hm, usub_self_eq, timeRemaining_pos_iff 0 (by omega)]
      omega
    have tc := tick_countdown s hp he' htr
    have hm1 : millis (delay 4294967296 (runLaunchSequence s)) = 1400 := by
      rw [millis_delay_of_clock _ s (runLaunchSequence s) tc.2.2.2.1]
      unfold millis delay U32 at *
      simp only
      omega
    have h := ih (delay 4294967296 (runLaunchSequence s))
      (by show (runLaunchSequence s).launchSequenceRunning = true; rw [tc.1]; exact hr)
      (by show (runLaunchSequence s).currentPad = 0; rw [tc.2.1]; exact hcp)
      (by
        show (runLaunchSequence s).launchSwitchStates 0 = LOW
        rw [runLaunchSequence_launchSwitchStates]; exact he)
      hm1
      (by
        show (runLaunchSequence s).mainCountdownStartTime = 0 ∨
          (runLaunchSequence s).mainCountdownStartTime = 1400
        rw [tc.2.2.1, hcs]; exact Or.inr rfl)
    rw [runTicks_succ _ n s hr, tc.2.2.2.2]
    exact ⟨h.1, by simpa using h.2⟩

/-- Remark on the step: the progress theorem below asks that `millis()` moves between two
ticks.  When it does not (a step of `2^32` ms, which the 32-bit counter reads as no step
at all) the countdown of pad 0 stands still: `millis()` reads 1400 at every tick and
`timeRemaining` stays 5000. -/
theorem sequence_stalls_when_step_is_clock_period :
    (startLaunchSequence (delay 100 armed)).launchSwitchStates 0 = LOW ∧
    ∀ n : Nat,
      (runTicks 4294967296 n (startLaunchSequence (delay 100 armed))).1.launchSequenceRunning
        = true ∧
      (runTicks 4294967296 n (startLaunchSequence (delay 100 armed))).2 = [] :=
  ⟨by decide, fun n =>
    frozen_clock_never_fires n (startLaunchSequence (delay 100 armed))
      (by decide) (by decide) (by decide) (by decide) (by decide)⟩

/-- C12: for every assignment of the pad switches held constant during the run and a
clock whose reading `millis()` advances by a fixed positive step each tick (a step `d`
with `d % 2^32 ≠ 0`: every step from 1 ms to `2^32 - 1` ms, and every longer one that the
32-bit counter does not read as zero), iterating `runLaunchSequence` from the state
produced by `startLaunchSequence` reaches after finitely many ticks
`launchSequenceRunning = false` with `currentPad = 5`.  The launch commands sent on the way
are exactly one `IR_LAUNCH_MESSAGE` for each engaged pad, in increasing pad order, and none
for a disengaged pad; any two of them are at least 5000 ms apart and the first comes at
least 5000 ms after the start.  A tick that finds the current pad disengaged moves on to
the next pad at once, with no output. -/
theorem sequence_fires_engaged_pads_in_order (d : Nat) (hd : d % U32 ≠ 0) (s0 : State) :
    (∃ n, (runTicks d n (startLaunchSequence s0)).1.launchSequenceRunning = false ∧
      (runTicks d n (startLaunchSequence s0)).1.currentPad = NUM_LAUNCH_SYSTEMS ∧
      (runTicks d n (startLaunchSequence s0)).2.map (fun f => (f.1, f.2.2)) =
        ((List.range NUM_LAUNCH_SYSTEMS).filter
          (fun p => decide (s0.launchSwitchStates p = LOW))).map
          (fun p => (p, IR_LAUNCH_MESSAGE)) ∧
      (runTicks d n (startLaunchSequence s0)).2.Pairwise (fun a b => a.2.1 + 5000 ≤ b.2.1) ∧
      (∀ f ∈ (runTicks d n (startLaunchSequence s0)).2, s0.clock + 5000 ≤ f.2.1)) ∧
    (∀ s : State, s.launchSequenceRunning = true → s.currentPad < NUM_LAUNCH_SYSTEMS →
      s.launchSwitchStates s.currentPad ≠ LOW →
      (runTicks d 1 s).1.currentPad = s.currentPad + 1 ∧
      (runTicks d 1 s).1.out = s.out ∧
      (runTicks d 1 s).2 = []) := by
  constructor
  · have h := sequence_completes_from d hd NUM_LAUNCH_SYSTEMS (startLaunchSequence s0)
      rfl rfl rfl
    have e : List.range' (startLaunchSequence s0).currentPad NUM_LAUNCH_SYSTEMS =
        List.range NUM_LAUNCH_SYSTEMS := by
      rw [List.range_eq_range']; rfl
    rw [e] at h
    exact h
  · intro s hr hp he
    have ts := tick_skip s hp he
    rw [runTicks_succ d 0 s hr]
    exact ⟨ts.2.1, ts.2.2.2.2.1, by simp [runTicks, ts.2.2.2.2.2]⟩

set_option maxRecDepth 20000 in
/-- Witness for C12: pads 0, 1, 3, 4 engaged and pad 2 disengaged, ticks every 1000 ms.
The run ends at the 26th tick with four launch commands, for pads 0, 1, 3 and 4 in that
order, at 6400, 12500, 19600 and 25700 ms. -/
theorem sequence_fires_engaged_pads_in_order_witness :
    (∃ n, (runTicks 1000 n (startLaunchSequence scenarioArmed)).1.launchSequenceRunning = false ∧
      (runTicks 1000 n (startLaunchSequence scenarioArmed)).1.currentPad = NUM_LAUNCH_SYSTEMS ∧
      (runTicks 1000 n (startLaunchSequence scenarioArmed)).2.map (fun f => (f.1, f.2.2)) =
        ((List.range NUM_LAUNCH_SYSTEMS).filter
          (fun p => decide (scenarioArmed.launchSwitchStates p = LOW))).map
          (fun p => (p, IR_LAUNCH_MESSAGE)) ∧
      (runTicks 1000 n (startLaunchSequence scenarioArmed)).2.Pairwise
        (fun a b => a.2.1 + 5000 ≤ b.2.1) ∧
      (∀ f ∈ (runTicks 1000 n (startLaunchSequence scenarioArmed)).2,
        scenarioArmed.clock + 5000 ≤ f.2.1)) ∧
    (List.range NUM_LAUNCH_SYSTEMS).filter
      (fun p => decide (scenarioArmed.launchSwitchStates p = LOW)) = [0, 1, 3, 4] ∧
    (runTicks 1000 25 (startLaunchSequence scenarioArmed)).1.launchSequenceRunning = true ∧
    (runTicks 1000 26 (startLaunchSequence scenarioArmed)).1.launchSequenceRunning = false ∧
    (runTicks 1000 26 (startLaunchSequence scenarioArmed)).1.currentPad = 5 ∧
    (runTicks 1000 26 (startLaunchSequence scenarioArmed)).2 =
      [(0, 6400, IR_LAUNCH_MESSAGE), (1, 12500, IR_LAUNCH_MESSAGE),
       (3, 19600, IR_LAUNCH_MESSAGE), (4, 25700, IR_LAUNCH_MESSAGE)] :=
  ⟨(sequence_fires_engaged_pads_in_order 1000 (by decide) scenarioArmed).1,
    by decide, by decide, by decide, by decide, by decide⟩

/-! ## Handshake (C13, C14) -/

theorem establishConnectionLoop_idle (rx : Nat → Option Nat) (startTime n k : Nat) (s : State)
    (hcond : (!s.connectionEstablished && s.systemOn &&
      decide (usub (millis s) startTime < CONNECTION_TIMEOUT)) = false) :
    establishConnectionLoop rx startTime n k s = s := by
  cases n with
  | zero => rfl
  | succ n => rw [establishConnectionLoop, if_neg (by simp [hcond])]

theorem requestsFrom_succ (c n : Nat) :
    requestsFrom c (n + 1) =
      (c, Effect.irSend IR_CONNECTION_REQUEST 32 38) :: requestsFrom (c + 100) n := by
  unfold requestsFrom
  rw [List.range_succ_eq_map]
  simp only [List.map_cons, List.map_map, Nat.mul_zero, Nat.add_zero, List.cons.injEq, true_and]
  apply List.map_congr_left
  intro i _
  simp only [Function.comp, Nat.succ_eq_add_one]
  congr 1
  omega

/-- State after the request and the delay of one handshake iteration. -/
theorem establishConnectionLoop_step_quiet (rx : Nat → Option Nat) (startTime n k : Nat)
    (s : State)
    (hcond : (!s.connectionEstablished && s.systemOn &&
      decide (usub (millis s) startTime < CONNECTION_TIMEOUT)) = true)
    (hrx : rx k ≠ some IR_CONNECTION_REPLY) :
    establishConnectionLoop rx startTime (n + 1) k s =
      establishConnectionLoop rx startTime n (k + 1)
        (delay 100 (emit (.irSend IR_CONNECTION_REQUEST 32 38) s)) := by
  rw [establishConnectionLoop, if_pos hcond]
  split
  · next v hv =>
    have : v ≠ IR_CONNECTION_REPLY := fun h => hrx (by rw [hv, h])
    simp only [this, if_false]
  · rfl

theorem establishConnectionLoop_step_reply (rx : Nat → Option Nat) (startTime n k : Nat)
    (s : State)
    (hcond : (!s.connectionEstablished && s.systemOn &&
      decide (usub (millis s) startTime < CONNECTION_TIMEOUT)) = true)
    (hrx : rx k = some IR_CONNECTION_REPLY) :
    establishConnectionLoop rx startTime (n + 1) k s =
      establishConnectionLoop rx startTime n (k + 1)
        (digitalWrite LED2 LOW (digitalWrite LED1 HIGH
          { delay 100 (emit (.irSend IR_CONNECTION_REQUEST 32 38) s) with
            connectionEstablished := true })) := by
  rw [establishConnectionLoop, if_pos hcond]
  split
  · next v hv =>
    have : v = IR_CONNECTION_REPLY := by rw [hrx] at hv; exact (Option.some.inj hv).symm
    simp only [this, if_true]
  · next hv => rw [hrx] at hv; exact absurd hv (by simp)

theorem establishConnectionLoop_done (rx : Nat → Option Nat) (startTime n k : Nat) (s : State)
    (hc : s.connectionEstablished = true) :
    establishConnectionLoop rx startTime n k s = s := by
  cases n with
  | zero => rfl
  | succ n => rw [establishConnectionLoop, if_neg (by simp [hc])]

theorem millis_emit (e : Effect) (s : State) : millis (emit e s) = millis s := rfl

/-- Handshake loop without a reply: it runs until the timeout. -/
theorem establishConnectionLoop_timeout (rx : Nat → Option Nat) (startTime : Nat) (n : Nat) :
    ∀ (k : Nat) (s : State), s.connectionEstablished = false → s.systemOn = true →
      usub (millis s) startTime + 100 * n = CONNECTION_TIMEOUT →
      (∀ j, j < n → rx (k + j) ≠ some IR_CONNECTION_REPLY) →
      establishConnectionLoop rx startTime n k s =
        { s with clock := s.clock + 100 * n, out := s.out ++ requestsFrom s.clock n } := by
  induction n with
  | zero =>
    intro k s _ _ _ _
    simp [establishConnectionLoop, requestsFrom]
  | succ n ih =>
    intro k s hc hon hel hrx
    have hlt : usub (millis s) startTime < CONNECTION_TIMEOUT := by omega
    have h0 : rx k ≠ some IR_CONNECTION_REPLY := by simpa using hrx 0 (by omega)
    have h2 := usub_millis_delay (emit (.irSend IR_CONNECTION_REQUEST 32 38) s) startTime 100
      (by rw [millis_emit]; unfold CONNECTION_TIMEOUT at hlt; unfold U32; omega)
    rw [millis_emit] at h2
    have hih := ih (k + 1) (delay 100 (emit (.irSend IR_CONNECTION_REQUEST 32 38) s)) hc hon
      (by rw [h2]; omega)
      (fun j hj => by
        have := hrx (j + 1) (by omega)
        rwa [show k + (j + 1) = k + 1 + j by omega] at this)
    rw [establishConnectionLoop_step_quiet rx startTime n k s (by simp [hc, hon, hlt]) h0, hih,
      requestsFrom_succ]
    simp only [delay, emit, List.append_assoc, List.singleton_append]
    congr 1
    omega

/-- Handshake loop with the first reply at poll `k + m`. -/
theorem establishConnectionLoop_reply (rx : Nat → Option Nat) (startTime : Nat) (m : Nat) :
    ∀ (n k : Nat) (s : State), s.connectionEstablished = false → s.systemOn = true →
      usub (millis s) startTime + 100 * m < CONNECTION_TIMEOUT → m < n →
      (∀ j, j < m → rx (k + j) ≠ some IR_CONNECTION_REPLY) →
      rx (k + m) = some IR_CONNECTION_REPLY →
      establishConnectionLoop rx startTime n k s =
        { s with
          connectionEstablished := true
          led1 := true
          led2 := false
          clock := s.clock + 100 * (m + 1)
          out := s.out ++ requestsFrom s.clock (m + 1) ++
            [(s.clock + 100 * (m + 1), .digitalWrite LED1 HIGH),
             (s.clock + 100 * (m + 1), .digitalWrite LED2 LOW)] } := by
  induction m with
  | zero =>
    intro n k s hc hon hel hn _ hr
    obtain ⟨n, rfl⟩ : ∃ n', n = n' + 1 := ⟨n - 1, by omega⟩
    have hlt : usub (millis s) startTime < CONNECTION_TIMEOUT := by omega
    rw [establishConnectionLoop_step_reply rx startTime n k s (by simp [hc, hon, hlt]) hr,
      establishConnectionLoop_done]
    · simp [digitalWrite, emit, delay, LED1, LED2, HIGH, LOW, requestsFrom, List.range_succ]
    · simp [digitalWrite, emit, LED1, LED2]
  | succ m ih =>
    intro n k s hc hon hel hn hrx hr
    obtain ⟨n, rfl⟩ : ∃ n', n = n' + 1 := ⟨n - 1, by omega⟩
    have hlt : usub (millis s) startTime < CONNECTION_TIMEOUT := by omega
    have h0 : rx k ≠ some IR_CONNECTION_REPLY := by simpa using hrx 0 (by omega)
    have h2 := usub_millis_delay (emit (.irSend IR_CONNECTION_REQUEST 32 38) s) startTime 100
      (by rw [millis_emit]; unfold CONNECTION_TIMEOUT at hlt; unfold U32; omega)
    rw [millis_emit] at h2
    have hih := ih n (k + 1) (delay 100 (emit (.irSend IR_CONNECTION_REQUEST 32 38) s)) hc hon
      (by rw [h2]; omega) (by omega)
      (fun j hj => by
        have := hrx (j + 1) (by omega)
        rwa [show k + (j + 1) = k + 1 + j by omega] at this)
      (by rwa [show k + 1 + m = k + (m + 1) by omega])
    rw [establishConnectionLoop_step_quiet rx startTime n k s (by simp [hc, hon, hlt]) h0, hih,
      requestsFrom_succ s.clock]
    simp only [delay, emit, List.append_assoc, List.singleton_append, List.cons_append]
    have e1 : s.clock + 100 + 100 * (m + 1) = s.clock + 100 * (m + 1 + 1) := by omega
    rw [e1]
    simp only [List.nil_append]

theorem sends_append (a b : List (Nat × Effect)) : sends (a ++ b) = sends a ++ sends b := by
  simp [sends]

theorem sends_requestsFrom (c n : Nat) : sends (requestsFrom c n) = requestsFrom c n := by
  unfold sends requestsFrom
  rw [List.filter_eq_self]
  intro e he
  simp only [List.mem_map, List.mem_range] at he
  obtain ⟨i, _, rfl⟩ := he
  rfl

/-- State of `establishConnection` on entering its `while` loop. -/
theorem establishConnection_entry (s : State) :
    digitalWrite LED2 HIGH { s with connectionEstablished := false } =
      { s with
        connectionEstablished := false
        led2 := true
        out := s.out ++ [(s.clock, .digitalWrite LED2 HIGH)] } := by
  simp [digitalWrite, emit, LED1, LED2, HIGH, LOW]

/-- C13: with the clock advanced by `delay(100)` only, if `establishConnection` is entered
with `systemOn` true (as `loop` does) and none of its 50 polls yields `ConnectionReply`,
it returns exactly 5000 ms after it started, having transmitted exactly 50 connection
requests, at 0, 100, ..., 4900 ms after the start, with `connectionEstablished` false,
LED2 on and LED1 off. -/
theorem establishConnection_times_out (rx : Nat → Option Nat) (s : State)
    (hon : s.systemOn = true)
    (hrx : ∀ k, k < 50 → rx k ≠ some IR_CONNECTION_REPLY) :
    (establishConnection rx s).clock = s.clock + 5000 ∧
    sends (newOut s (establishConnection rx s)) = requestsFrom s.clock 50 ∧
    (establishConnection rx s).connectionEstablished = false ∧
    (establishConnection rx s).led2 = true ∧
    (establishConnection rx s).led1 = false := by
  have hloop := establishConnectionLoop_timeout rx (millis s) 50 0
    { s with
      connectionEstablished := false
      led2 := true
      out := s.out ++ [(s.clock, .digitalWrite LED2 HIGH)] } rfl hon
    (by
      show usub (millis s) (millis s) + 100 * 50 = CONNECTION_TIMEOUT
      rw [usub_self_eq]; rfl)
    (fun j hj => by simpa using hrx j hj)
  have heq : establishConnection rx s =
      { s with
        connectionEstablished := false
        led1 := false
        led2 := true
        clock := s.clock + 5000
        out := s.out ++ [(s.clock, .digitalWrite LED2 HIGH)] ++ requestsFrom s.clock 50 ++
          [(s.clock + 5000, .digitalWrite LED2 HIGH), (s.clock + 5000, .digitalWrite LED1 LOW)] } := by
    unfold establishConnection
    simp only [establishConnection_entry, hloop]
    simp [digitalWrite, emit, LED1, LED2, HIGH, LOW]
  rw [heq]
  refine ⟨rfl, ?_, rfl, rfl, rfl⟩
  rw [newOut_of_append s _ (([(s.clock, .digitalWrite LED2 HIGH)] ++ requestsFrom s.clock 50) ++
    [(s.clock + 5000, .digitalWrite LED2 HIGH), (s.clock + 5000, .digitalWrite LED1 LOW)])
    (by simp)]
  rw [sends_append, sends_append, sends_requestsFrom]
  simp [sends, Effect.isSend]

/-- Witness for C13: the key switch is closed after `setup` and nothing is ever received. -/
theorem establishConnection_times_out_witness :
    startingUp.systemOn = true ∧
    startingUp.clock = 1000 ∧
    (establishConnection idle.rxHandshake startingUp).clock = 6000 ∧
    (establishConnection idle.rxHandshake startingUp).connectionEstablished = false ∧
    (establishConnection idle.rxHandshake startingUp).led2 = true :=
  have h := establishConnection_times_out idle.rxHandshake startingUp (by decide)
    (fun _ _ => by simp [idle])
  ⟨by decide, by decide, h.1, h.2.2.1, h.2.2.2.1⟩

/-- C14: with the clock advanced by `delay(100)` only, for every `k` with `1 <= k <= 50`,
if `establishConnection` is entered with `systemOn` true, its first `k - 1` polls yield
no `ConnectionReply` and the `k`-th poll yields `ConnectionReply`, it returns with
`connectionEstablished` true, LED1 on and LED2 off, `100 k` ms after it started, having
transmitted exactly `k` connection requests, at 0, 100, ..., `100 (k - 1)` ms after the
start, and none after the reply. -/
theorem establishConnection_succeeds_at_reply (rx : Nat → Option Nat) (s : State) (k : Nat)
    (hon : s.systemOn = true) (hk1 : 1 ≤ k) (hk50 : k ≤ 50)
    (hrx : ∀ j, j < k - 1 → rx j ≠ some IR_CONNECTION_REPLY)
    (hreply : rx (k - 1) = some IR_CONNECTION_REPLY) :
    (establishConnection rx s).connectionEstablished = true ∧
    (establishConnection rx s).led1 = true ∧
    (establishConnection rx s).led2 = false ∧
    (establishConnection rx s).clock = s.clock + 100 * k ∧
    sends (newOut s (establishConnection rx s)) = requestsFrom s.clock k := by
  obtain ⟨m, rfl⟩ : ∃ m, k = m + 1 := ⟨k - 1, by omega⟩
  simp only [Nat.add_sub_cancel] at hrx hreply
  have hloop := establishConnectionLoop_reply rx (millis s) m 50 0
    { s with
      connectionEstablished := false
      led2 := true
      out := s.out ++ [(s.clock, .digitalWrite LED2 HIGH)] } rfl hon
    (by
      show usub (millis s) (millis s) + 100 * m < CONNECTION_TIMEOUT
      rw [usub_self_eq]; unfold CONNECTION_TIMEOUT; omega)
    (by omega)
    (fun j hj => by simpa using hrx j hj)
    (by simpa using hreply)
  have heq : establishConnection rx s =
      { s with
        connectionEstablished := true
        led1 := true
        led2 := false
        clock := s.clock + 100 * (m + 1)
        out := s.out ++ [(s.clock, .digitalWrite LED2 HIGH)] ++ requestsFrom s.clock (m + 1) ++
          [(s.clock + 100 * (m + 1), .digitalWrite LED1 HIGH),
           (s.clock + 100 * (m + 1), .digitalWrite LED2 LOW)] } := by
    unfold establishConnection
    simp only [establishConnection_entry, hloop]
    simp
  rw [heq]
  refine ⟨rfl, rfl, rfl, rfl, ?_⟩
  rw [newOut_of_append s _ (([(s.clock, .digitalWrite LED2 HIGH)] ++ requestsFrom s.clock (m + 1)) ++
    [(s.clock + 100 * (m + 1), .digitalWrite LED1 HIGH),
     (s.clock + 100 * (m + 1), .digitalWrite LED2 LOW)])
    (by simp)]
  rw [sends_append, sends_append, sends_requestsFrom]
  simp [sends, Effect.isSend]

/-- Witness for C14: the reply is seen by the third poll; three requests were sent, at
1000, 1100 and 1200 ms, and the handshake returns at 1300 ms. -/
theorem establishConnection_succeeds_at_reply_witness :
    startingUp.clock = 1000 ∧
    (establishConnection keyOn.rxHandshake startingUp).connectionEstablished = true ∧
    (establishConnection keyOn.rxHandshake startingUp).clock = 1300 ∧
    sends (newOut startingUp (establishConnection keyOn.rxHandshake startingUp)) =
      [(1000, .irSend IR_CONNECTION_REQUEST 32 38), (1100, .irSend IR_CONNECTION_REQUEST 32 38),
       (1200, .irSend IR_CONNECTION_REQUEST 32 38)] :=
  have h := establishConnection_succeeds_at_reply keyOn.rxHandshake startingUp 3
    (by decide) (by decide) (by decide) (by decide) (by decide)
  ⟨by decide, h.1, h.2.2.2.1, h.2.2.2.2⟩

/-! ## Indicators (C15) -/

/-- Loop invariant of the handshake: once connected, LED1 is on and LED2 is off. -/
theorem establishConnectionLoop_leds (rx : Nat → Option Nat) (startTime n : Nat) :
    ∀ (k : Nat) (s : State),
      (s.connectionEstablished = true → s.led1 = true ∧ s.led2 = false) →
      (establishConnectionLoop rx startTime n k s).connectionEstablished = true →
      (establishConnectionLoop rx startTime n k s).led1 = true ∧
      (establishConnectionLoop rx startTime n k s).led2 = false := by
  induction n with
  | zero => intro k s h; exact h
  | succ n ih =>
    intro k s h
    by_cases hcond : (!s.connectionEstablished && s.systemOn &&
        decide (usub (millis s) startTime < CONNECTION_TIMEOUT)) = true
    · have hce : s.connectionEstablished = false := by
        simp only [Bool.and_eq_true, Bool.not_eq_true'] at hcond
        exact hcond.1.1
      by_cases hr : rx k = some IR_CONNECTION_REPLY
      · rw [establishConnectionLoop_step_reply rx startTime n k s hcond hr]
        apply ih
        intro _
        simp [digitalWrite, emit, LED1, LED2, HIGH, LOW]
      · rw [establishConnectionLoop_step_quiet rx startTime n k s hcond hr]
        apply ih
        intro h2
        have h3 : s.connectionEstablished = true := h2
        rw [hce] at h3
        exact absurd h3 (by simp)
    · rw [establishConnectionLoop_idle rx startTime (n + 1) k s (by simpa using hcond)]
      exact h

theorem establishConnection_leds (rx : Nat → Option Nat) (s : State) :
    (establishConnection rx s).led1 = (establishConnection rx s).connectionEstablished ∧
    (establishConnection rx s).led2 = !(establishConnection rx s).connectionEstablished := by
  have hl := establishConnectionLoop_leds rx (millis s) 50 0
    (digitalWrite LED2 HIGH { s with connectionEstablished := false })
    (by simp [digitalWrite, emit, LED1, LED2])
  unfold establishConnection
  simp only
  generalize establishConnectionLoop rx (millis s) 50 0
    (digitalWrite LED2 HIGH { s with connectionEstablished := false }) = t at hl ⊢
  by_cases hc : t.connectionEstablished = true
  · have := hl hc
    simp [hc, this]
  · have hc' : t.connectionEstablished = false := by simpa using hc
    simp [hc', digitalWrite, emit, LED1, LED2, HIGH, LOW]

theorem loopEmergencyStop_notBoth (db : Debouncer) (inp : Input) (s : State)
    (h : ¬ (s.led1 = true ∧ s.led2 = true)) :
    ¬ ((loopEmergencyStop db inp s).led1 = true ∧ (loopEmergencyStop db inp s).led2 = true) := by
  unfold loopEmergencyStop
  simp only [clearDisplays_eq, digitalWrite, emit, LED1, LED2]
  split_ifs <;> simp_all

theorem loopKeySwitch_notBoth (db : Debouncer) (inp : Input) (s : State)
    (h : ¬ (s.led1 = true ∧ s.led2 = true)) :
    ¬ ((loopKeySwitch db inp s).led1 = true ∧ (loopKeySwitch db inp s).led2 = true) := by
  unfold loopKeySwitch
  simp only [clearDisplays_eq, digitalWrite, emit, LED1, LED2]
  split_ifs
  · have hl := establishConnection_leds inp.rxHandshake
      (startupAnimation
        { s with
          keySwitchState :=
            (db inp.keySwitch (millis s) s.keySwitchState (s.lastDebounceTime 0)).lastState
          lastDebounceTime := setAt s.lastDebounceTime 0
            (db inp.keySwitch (millis s) s.keySwitchState (s.lastDebounceTime 0)).lastDebounceTime
          systemOn := true })
    rw [hl.1, hl.2]
    simp
  all_goals first | exact h | simp

theorem loopWith_notBoth (db : Debouncer) (inp : Input) (s : State)
    (h : ¬ (s.led1 = true ∧ s.led2 = true)) :
    ¬ ((loopWith db inp s).led1 = true ∧ (loopWith db inp s).led2 = true) := by
  have he := loopEmergencyStop_notBoth db inp s h
  unfold loopWith
  simp only
  split_ifs
  · exact he
  · have hk := loopKeySwitch_notBoth db inp _ he
    have hv : (loopTail inp (loopLaunchButton db inp (loopBeforeLaunch db inp s))).linkView =
        (loopKeySwitch db inp (loopEmergencyStop db inp s)).linkView := by
      unfold loopBeforeLaunch
      rw [loopTail_linkView, loopLaunchButton_linkView, loopReadSwitches_linkView,
        loopEnableSwitch_linkView]
    simp only [State.linkView, Prod.mk.injEq] at hv
    rw [hv.2.2.1, hv.2.2.2]
    exact hk

theorem runSteps_notBoth (xs : List (Debouncer × Nat × Input)) :
    ∀ s : State, ¬ (s.led1 = true ∧ s.led2 = true) →
      ¬ ((runSteps xs s).led1 = true ∧ (runSteps xs s).led2 = true) := by
  induction xs with
  | nil => intro s h; exact h
  | cons x rest ih =>
    intro s h
    exact ih _ (loopWith_notBoth x.1 x.2.2 (delay x.2.1 s) h)

/-- C15: in every state reached from `setup` by any sequence of loop iterations (any
debouncer behaviour, elapsed times and readings), LED1 and LED2 are not both on at the
end of the iteration; and at return from `establishConnection`, from any state, LED1 is
on iff `connectionEstablished` is true and LED2 is on iff it is false, so exactly one of
them is on. -/
theorem indicators_never_both_on (xs : List (Debouncer × Nat × Input))
    (rx : Nat → Option Nat) (s : State) :
    ¬ ((runSteps xs setup).led1 = true ∧ (runSteps xs setup).led2 = true) ∧
    ((establishConnection rx s).led1 = true ↔
      (establishConnection rx s).connectionEstablished = true) ∧
    ((establishConnection rx s).led2 = true ↔
      (establishConnection rx s).connectionEstablished = false) := by
  refine ⟨runSteps_notBoth xs setup (by decide), ?_, ?_⟩
  · rw [(establishConnection_leds rx s).1]
  · rw [(establishConnection_leds rx s).2]
    simp

/-! ## Invariants of the pad timers -/

theorem frozenAhead_of_padView (s t : State) (h : t.padView = s.padView) (hs : frozenAhead s) :
    frozenAhead t := by
  simp only [State.padView, Prod.mk.injEq] at h
  intro j h1 h2
  rw [h.2.2.2.2]
  exact hs j (by rw [← h.1]; exact h1) h2

theorem countdownTick_padTimerFrozen (tr : Int) (s : State) :
    (countdownTick tr s).padTimerFrozen = s.padTimerFrozen := by
  by_cases h1 : s.padTimerStartTime s.currentPad = 0 <;>
    by_cases h2 : s.padTimerFrozen s.currentPad = true <;>
    simp [countdownTick, emit, h1, h2, setAt]

theorem startLaunchSequence_frozenAhead (s : State) : frozenAhead (startLaunchSequence s) := by
  intro j _ h2
  unfold NUM_LAUNCH_SYSTEMS at h2
  have : j = 0 ∨ j = 1 ∨ j = 2 ∨ j = 3 ∨ j = 4 := by omega
  rcases this with h | h | h | h | h <;> subst h <;> rfl

theorem runLaunchSequence_frozenAhead (s : State) (hs : frozenAhead s) :
    frozenAhead (runLaunchSequence s) := by
  unfold runLaunchSequence
  simp only [clearDisplays_eq]
  split_ifs
  all_goals
    intro j h1 h2
    first
    | (rw [countdownTick_padTimerFrozen]
       rw [countdownTick_currentPad] at h1
       exact hs j h1 h2)
    | (simp only [firePad, emit, delay] at h1 ⊢
       exact hs j (by omega) h2)
    | (simp only at h1 ⊢
       have hne : j ≠ s.currentPad := by omega
       simp only [setAt, hne, if_false]
       exact hs j (by omega) h2)

theorem establishConnection_padView (rx : Nat → Option Nat) (s : State) :
    (establishConnection rx s).padView = s.padView := by
  have h := congrArg State.padView (establishConnection_handshakeErased rx s)
  simpa only [State.handshakeErased, State.padView] using h

theorem startupAnimation_padView (s : State) :
    (startupAnimation s).padView = s.padView := by
  have h := congrArg State.padView (startupAnimation_handshakeErased s)
  simpa only [State.handshakeErased, State.padView] using h

theorem loopKeySwitch_padView (db : Debouncer) (inp : Input) (s : State) :
    (loopKeySwitch db inp s).padView = s.padView := by
  unfold loopKeySwitch
  simp only [clearDisplays_eq, digitalWrite, emit]
  split_ifs
  · rw [establishConnection_padView, startupAnimation_padView]
    rfl
  all_goals rfl

theorem loopEnableSwitch_padView (db : Debouncer) (inp : Input) (s : State) :
    (loopEnableSwitch db inp s).padView = s.padView := by
  unfold loopEnableSwitch
  simp only
  split_ifs <;> rfl

theorem loopReadSwitches_padView (inp : Input) (s : State) :
    (loopReadSwitches inp s).padView = s.padView := by
  unfold loopReadSwitches
  split_ifs <;> rfl

theorem loopBeforeLaunch_padView (db : Debouncer) (inp : Input) (s : State) :
    (loopBeforeLaunch db inp s).padView = s.padView := by
  unfold loopBeforeLaunch
  rw [loopReadSwitches_padView, loopEnableSwitch_padView, loopKeySwitch_padView,
    loopEmergencyStop_padView]

theorem loopLaunchButton_frozenAhead (db : Debouncer) (inp : Input) (s : State)
    (hs : frozenAhead s) : frozenAhead (loopLaunchButton db inp s) := by
  unfold loopLaunchButton
  simp only
  split_ifs
  · exact startLaunchSequence_frozenAhead _
  all_goals exact hs

theorem loopTail_frozenAhead (inp : Input) (s : State) (hs : frozenAhead s) :
    frozenAhead (loopTail inp s) := by
  have hr := runLaunchSequence_frozenAhead s hs
  unfold loopTail handleIRCommunication receiveIRMessage
  simp only
  split_ifs <;> (try split) <;> (try split_ifs) <;> assumption

/-- State in which an iteration reaches the call of `runLaunchSequence`. -/
theorem atCall_frozenAhead (db : Debouncer) (inp : Input) (s : State) (hs : frozenAhead s) :
    frozenAhead (loopLaunchButton db inp (loopBeforeLaunch db inp s)) :=
  loopLaunchButton_frozenAhead db inp _
    (frozenAhead_of_padView s _ (loopBeforeLaunch_padView db inp s) hs)

theorem loopWith_frozenAhead (db : Debouncer) (inp : Input) (s : State) (hs : frozenAhead s) :
    frozenAhead (loopWith db inp s) := by
  unfold loopWith
  simp only
  split_ifs
  · exact frozenAhead_of_padView s _ (loopEmergencyStop_padView db inp s) hs
  · exact loopTail_frozenAhead inp _ (atCall_frozenAhead db inp s hs)

theorem runSteps_frozenAhead (xs : List (Debouncer × Nat × Input)) :
    ∀ s : State, frozenAhead s → frozenAhead (List.foldl (fun s x => stepWith x.1 x.2 s) s xs) := by
  induction xs with
  | nil => intro s h; exact h
  | cons x rest ih =>
    intro s h
    exact ih _ (loopWith_frozenAhead x.1 x.2.2 (delay x.2.1 s) h)

/-- C17 (evaluation of the code at the failing input): with accepted state `HIGH`, two
consecutive calls read `LOW` at 10 ms and at 20 ms.  The first call stores 10 and does
not commit; the second call stores 20, not 10.  And a call at 100 ms that reads `LOW`
with accepted state `HIGH` and stored change time 0 (so `now - lastDebounceTime = 100`,
at least 50) returns false and does not commit. -/
theorem debounce_timer_restarts_on_every_differing_reading :
    debounceSwitch LOW 10 HIGH 0 = { changed := false, lastState := HIGH, lastDebounceTime := 10 } ∧
    debounceSwitch LOW 20 HIGH 10 = { changed := false, lastState := HIGH, lastDebounceTime := 20 } ∧
    debounceSwitch LOW 100 HIGH 0 =
      { changed := false, lastState := HIGH, lastDebounceTime := 100 } := by
  decide

/-- An iteration of `loop` in a state that is off and idle changes none of the mode
variables and writes no output. -/
theorem loop_inert (inp : Input) (s : State)
    (h1 : s.systemStopped = false) (h2 : s.systemOn = false) (h3 : s.launchEnabled = false)
    (h4 : s.connectionEstablished = false) (h5 : s.launchSequenceRunning = false) :
    (loop inp s).systemStopped = false ∧
    (loop inp s).systemOn = false ∧
    (loop inp s).launchEnabled = false ∧
    (loop inp s).connectionEstablished = false ∧
    (loop inp s).launchSequenceRunning = false ∧
    (loop inp s).out = s.out := by
  have q := fun a b c d => (debounceSwitch_quiet a b c d).1
  simp [loop, loopWith, loopBeforeLaunch, loopTail, loopLaunchButton, loopReadSwitches,
    loopEnableSwitch, loopKeySwitch, loopEmergencyStop, q, h1, h2, h3, h4, h5]

theorem delay_fields (n : Nat) (s : State) :
    (delay n s).systemStopped = s.systemStopped ∧
    (delay n s).systemOn = s.systemOn ∧
    (delay n s).launchEnabled = s.launchEnabled ∧
    (delay n s).connectionEstablished = s.connectionEstablished ∧
    (delay n s).launchSequenceRunning = s.launchSequenceRunning ∧
    (delay n s).out = s.out :=
  ⟨rfl, rfl, rfl, rfl, rfl, rfl⟩

theorem runLoop_inert (xs : List (Nat × Input)) :
    ∀ s : State, s.systemStopped = false → s.systemOn = false → s.launchEnabled = false →
      s.connectionEstablished = false → s.launchSequenceRunning = false →
      (runLoop xs s).systemStopped = false ∧
      (runLoop xs s).systemOn = false ∧
      (runLoop xs s).launchEnabled = false ∧
      (runLoop xs s).connectionEstablished = false ∧
      (runLoop xs s).launchSequenceRunning = false ∧
      (runLoop xs s).out = s.out := by
  induction xs with
  | nil => intro s h1 h2 h3 h4 h5; exact ⟨h1, h2, h3, h4, h5, rfl⟩
  | cons x rest ih =>
    intro s h1 h2 h3 h4 h5
    have hl := loop_inert x.2 (delay x.1 s) h1 h2 h3 h4 h5
    have hr := ih (loop x.2 (delay x.1 s)) hl.1 hl.2.1 hl.2.2.1 hl.2.2.2.1 hl.2.2.2.2.1
    refine ⟨hr.1, hr.2.1, hr.2.2.1, hr.2.2.2.1, hr.2.2.2.2.1, ?_⟩
    exact hr.2.2.2.2.2.trans hl.2.2.2.2.2

/-- C18: for every reading, accepted state, stored change time and clock value,
`debounceSwitch` returns false and leaves the accepted state unchanged.  Consequently,
after any sequence of iterations of `loop` from the state left by `setup`,
`systemStopped`, `systemOn`, `launchEnabled`, `connectionEstablished` and
`launchSequenceRunning` still have their initial values and no message has been sent. -/
theorem debounceSwitch_never_reports (reading : Int) (now : Nat) (lastState : Int)
    (lastDebounceTime : Nat) (xs : List (Nat × Input)) :
    (debounceSwitch reading now lastState lastDebounceTime).changed = false ∧
    (debounceSwitch reading now lastState lastDebounceTime).lastState = lastState ∧
    (runLoop xs setup).systemStopped = setup.systemStopped ∧
    (runLoop xs setup).systemOn = setup.systemOn ∧
    (runLoop xs setup).launchEnabled = setup.launchEnabled ∧
    (runLoop xs setup).connectionEstablished = setup.connectionEstablished ∧
    (runLoop xs setup).launchSequenceRunning = setup.launchSequenceRunning ∧
    sends (runLoop xs setup).out = [] := by
  have hq := debounceSwitch_quiet reading now lastState lastDebounceTime
  have hr := runLoop_inert xs setup rfl rfl rfl rfl rfl
  refine ⟨hq.1, hq.2, hr.1, hr.2.1, hr.2.2.1, hr.2.2.2.1, hr.2.2.2.2.1, ?_⟩
  rw [hr.2.2.2.2.2]
  decide

/-! ## Frame of a stopped iteration (C19) -/

/-- Explicit form of an iteration that finds the stop active. -/
theorem loopWith_stopped_eq (db : Debouncer) (inp : Input) (s : State)
    (hs : s.systemStopped = true)
    (hno : ¬ ((db inp.emergencyStop (millis s) s.emergencyStopState
          (s.lastDebounceTime 3)).changed = true ∧
        (db inp.emergencyStop (millis s) s.emergencyStopState
          (s.lastDebounceTime 3)).lastState = LOW)) :
    loopWith db inp s =
      { s with
        emergencyStopState :=
          (db inp.emergencyStop (millis s) s.emergencyStopState (s.lastDebounceTime 3)).lastState
        lastDebounceTime := setAt s.lastDebounceTime 3
          (db inp.emergencyStop (millis s) s.emergencyStopState
            (s.lastDebounceTime 3)).lastDebounceTime } := by
  have heq : loopEmergencyStop db inp s =
      { s with
        emergencyStopState :=
          (db inp.emergencyStop (millis s) s.emergencyStopState (s.lastDebounceTime 3)).lastState
        lastDebounceTime := setAt s.lastDebounceTime 3
          (db inp.emergencyStop (millis s) s.emergencyStopState
            (s.lastDebounceTime 3)).lastDebounceTime } := by
    unfold loopEmergencyStop
    simp only
    split_ifs with h1 h2 h3
    · exact absurd ⟨h1, h2⟩ hno
    · exact absurd ⟨h1, h2⟩ hno
    · rfl
    · rfl
  unfold loopWith
  simp [heq, hs]

/-- C19: for every state with `systemStopped` true and every debouncer, a loop iteration
whose emergency-stop debounce call reports no press edge returns at once: the output log
(messages, indicator and display writes), the indicators and the clock are unchanged, and
so are `systemOn`, `launchEnabled`, `connectionEstablished`, `launchSequenceRunning`,
`currentPad`, `mainCountdownStartTime`, the pad arrays, the pad switch states and the
debounce state of the key switch, enable switch and launch button, whatever the inputs
read. -/
theorem stopped_iteration_changes_nothing (db : Debouncer) (inp : Input) (s : State)
    (hs : s.systemStopped = true)
    (hno : ¬ ((db inp.emergencyStop (millis s) s.emergencyStopState
          (s.lastDebounceTime 3)).changed = true ∧
        (db inp.emergencyStop (millis s) s.emergencyStopState
          (s.lastDebounceTime 3)).lastState = LOW)) :
    (loopWith db inp s).out = s.out ∧
    (loopWith db inp s).led1 = s.led1 ∧
    (loopWith db inp s).led2 = s.led2 ∧
    (loopWith db inp s).clock = s.clock ∧
    (loopWith db inp s).systemStopped = true ∧
    (loopWith db inp s).systemOn = s.systemOn ∧
    (loopWith db inp s).launchEnabled = s.launchEnabled ∧
    (loopWith db inp s).connectionEstablished = s.connectionEstablished ∧
    (loopWith db inp s).launchSequenceRunning = s.launchSequenceRunning ∧
    (loopWith db inp s).currentPad = s.currentPad ∧
    (loopWith db inp s).mainCountdownStartTime = s.mainCountdownStartTime ∧
    (loopWith db inp s).padTimerStartTime = s.padTimerStartTime ∧
    (loopWith db inp s).padSecondsElapsed = s.padSecondsElapsed ∧
    (loopWith db inp s).padTimerFrozen = s.padTimerFrozen ∧
    (loopWith db inp s).launchSwitchStates = s.launchSwitchStates ∧
    (loopWith db inp s).keySwitchState = s.keySwitchState ∧
    (loopWith db inp s).enableSwitchState = s.enableSwitchState ∧
    (loopWith db inp s).launchButtonState = s.launchButtonState ∧
    (∀ i, i < 3 → (loopWith db inp s).lastDebounceTime i = s.lastDebounceTime i) := by
  rw [loopWith_stopped_eq db inp s hs hno]
  refine ⟨rfl, rfl, rfl, rfl, hs, rfl, rfl, rfl, rfl, rfl, rfl, rfl, rfl, rfl, rfl, rfl, rfl, rfl,
    ?_⟩
  intro i hi
  have : i ≠ 3 := by omega
  simp [setAt, this]

/-- Witness for C19 at the state `stopped`, with the key switch read open. -/
theorem stopped_iteration_changes_nothing_witness :
    stopped.systemStopped = true ∧
    (loopWith edgeDebounce keyOff stopped).out = stopped.out ∧
    (loopWith edgeDebounce keyOff stopped).launchSequenceRunning =
      stopped.launchSequenceRunning ∧
    (loopWith edgeDebounce keyOff stopped).keySwitchState = stopped.keySwitchState :=
  have h := stopped_iteration_changes_nothing edgeDebounce keyOff stopped
    (by decide) (by decide)
  ⟨by decide, h.1, h.2.2.2.2.2.2.2.2.1, h.2.2.2.2.2.2.2.2.2.2.2.2.2.2.2.1⟩

/-! ## Frozen flags (C20) -/

theorem runLaunchSequence_freezes_on_leaving (t : State) (j : Nat)
    (h0 : t.padTimerFrozen j = false) (h1 : (runLaunchSequence t).padTimerFrozen j = true) :
    j = t.currentPad ∧ (runLaunchSequence t).currentPad = j + 1 := by
  have hbool : ¬ (false = true) := by simp
  unfold runLaunchSequence at h1 ⊢
  simp only [clearDisplays_eq] at h1 ⊢
  split_ifs at h1 ⊢
  all_goals
    first
    | (rw [countdownTick_padTimerFrozen] at h1
       exact absurd (h0.symm.trans h1) hbool)
    | exact absurd (h0.symm.trans h1) hbool
    | (simp only [setAt] at h1
       by_cases hj : j = t.currentPad
       · exact ⟨hj, by rw [hj]⟩
       · rw [if_neg hj] at h1
         exact absurd (h0.symm.trans h1) hbool)

/-- C20: in every state reached from `setup` by loop iterations (any debouncer behaviour,
elapsed times and readings) `padTimerFrozen[i]` is false for every `i` with
`currentPad <= i < 5`.  The same holds where the next iteration calls
`runLaunchSequence`, so the current pad is not frozen there and the guard of the
elapsed-time update never suppresses it.  And if a call of `runLaunchSequence` turns
`padTimerFrozen[j]` from false to true, then `j` was the current pad and the call moves
`currentPad` to `j + 1`. -/
theorem frozen_flags_only_behind_current_pad (xs : List (Debouncer × Nat × Input))
    (db : Debouncer) (dt : Nat) (inp : Input) (t : State) (j : Nat) :
    (∀ i, (runSteps xs setup).currentPad ≤ i → i < NUM_LAUNCH_SYSTEMS →
      (runSteps xs setup).padTimerFrozen i = false) ∧
    ((loopLaunchButton db inp
        (loopBeforeLaunch db inp (delay dt (runSteps xs setup)))).currentPad
        < NUM_LAUNCH_SYSTEMS →
      (loopLaunchButton db inp
        (loopBeforeLaunch db inp (delay dt (runSteps xs setup)))).padTimerFrozen
        (loopLaunchButton db inp
          (loopBeforeLaunch db inp (delay dt (runSteps xs setup)))).currentPad = false) ∧
    (t.padTimerFrozen j = false → (runLaunchSequence t).padTimerFrozen j = true →
      j = t.currentPad ∧ (runLaunchSequence t).currentPad = j + 1) := by
  have h0 : frozenAhead setup := fun _ _ _ => rfl
  have hr : frozenAhead (runSteps xs setup) := runSteps_frozenAhead xs setup h0
  have hc := atCall_frozenAhead db inp (delay dt (runSteps xs setup)) hr
  exact ⟨hr, fun h => hc _ (Nat.le_refl _) h, runLaunchSequence_freezes_on_leaving t j⟩

/-- Witness for C20: pad 0 is switched off 2000 ms into its countdown; the call of
`runLaunchSequence` marks it frozen and moves on to pad 1. -/
theorem frozen_flags_only_behind_current_pad_witness :
    (atTick counting 2000 pressPadOff).padTimerFrozen 0 = false ∧
    (runLaunchSequence (atTick counting 2000 pressPadOff)).padTimerFrozen 0 = true ∧
    0 = (atTick counting 2000 pressPadOff).currentPad ∧
    (runLaunchSequence (atTick counting 2000 pressPadOff)).currentPad = 0 + 1 :=
  have h := (frozen_flags_only_behind_current_pad [] edgeDebounce 0 idle
    (atTick counting 2000 pressPadOff) 0).2.2 (by decide) (by decide)
  ⟨by decide, by decide, h.1, h.2⟩

end LaunchPad
